import Mathlib

/-!
Verification of the duetPrintGuard camera-monitoring core.

This file gives a shallow embedding of the data model and operations of the
duetPrintGuard repository (camera state store, majority-vote smoothing,
detection-history bounding, alert lifecycle, shared video stream capture loop,
outbound SSE event bus and stream optimizer) and proves or refutes the frozen
claims about them.

Conventions of the embedding:
- Python timestamps (seconds or milliseconds) are modelled as `Int`; none of
  the verified properties depend on fractional parts of a timestamp.
- Python dictionaries keyed by strings are modelled as association lists.
- Fallible Python code (pydantic validation) is modelled with `Except`.
- Each definition mirrors one Python function and keeps its name where Lean
  syntax allows it; variable names inside definitions follow the source,
  including the spelling `results_to_retreive` from the source.
-/

namespace DuetPrintGuard

/-! ## Data model: models.py -/

/-- `AlertAction` from `models.py`: the three countdown actions. -/
inductive AlertAction
  | dismiss
  | cancel_print
  | pause_print
deriving DecidableEq

/-- `SSEDataType` from `models.py`: the tags of outbound events. -/
inductive SSEDataType
  | alert
  | camera_state
  | printer_state
deriving DecidableEq

/-- `SiteStartupMode` from `models.py` (a Python str-enum). -/
inductive SiteStartupMode
  | setup
  | local
  | tunnel
deriving DecidableEq

/-- The value stored in a camera record field `current_alert_id`.  The code
stores `None`, the Python boolean `True` (written by the test-and-set in
`create_optimized_detection_loop`), or an alert-id string.  An alert id is the
pair (camera uuid, unique suffix): the code builds the string
`f"{camera_uuid}_{uuid4()}"` and recovers the camera uuid by splitting at the
first underscore, which is faithful because camera uuids are `uuid4` strings
containing no underscore. -/
inductive AlertSlot
  | empty
  | claimed
  | ident (id : String × String)
deriving DecidableEq

/-- The fields of `CameraState` (`models.py`) used by the verified operations.
Defaults mirror the constants of `utils/config.py` injected by the custom
`__init__` (BRIGHTNESS 1.0, CONTRAST 1.0, FOCUS 1.0, SENSITIVITY 1.0,
COUNTDOWN_TIME 60, COUNTDOWN_ACTION dismiss, DETECTION_VOTING_WINDOW 5,
DETECTION_VOTING_THRESHOLD 2).  `nickname` and `source` have no default in the
pydantic model; see `mkCameraState` for the validation behaviour. -/
structure CameraState where
  nickname : String
  source : String
  current_alert_id : AlertSlot := .empty
  detection_history : List (Int × String) := []
  live_detection_running : Bool := false
  last_result : Option String := none
  last_time : Option Int := none
  start_time : Option Int := none
  error : Option String := none
  countdown_time : Int := 60
  countdown_action : AlertAction := .dismiss
  majority_vote_window : Int := 5
  majority_vote_threshold : Int := 2
  printer_config : Option String := none
deriving DecidableEq

/-- A fresh `CameraState(nickname=..., source=...)` with all config defaults. -/
def defaultCameraState (nickname source : String) : CameraState :=
  { nickname := nickname, source := source }

/-! ## Majority vote: `detection_utils._passed_majority_vote` -/

/-- Python list slicing `h[start:]` for an arbitrary integer `start`:
a non-negative start drops that many elements; a negative start keeps the
last `-start` elements (all of them when `-start` exceeds the length). -/
def pySliceFrom {A : Type} (h : List A) (start : Int) : List A :=
  if 0 ≤ start then h.drop start.toNat
  else h.drop (max 0 ((h.length : Int) + start)).toNat

/-- Embedding of `_passed_majority_vote` (`3.6.x/code/dsf/utils/detection_utils.py`):
take `min(len(history), majority_vote_window)` as the slice size, slice the
history with a negated index (so a size of `0` yields `history[-0:]`, which in
Python is the whole list), count entries labelled `"failure"` and compare with
the threshold. -/
def passedMajorityVote (camera_state : CameraState) : Bool :=
  let detection_history := camera_state.detection_history
  let majority_vote_window := camera_state.majority_vote_window
  let majority_vote_threshold := camera_state.majority_vote_threshold
  let results_to_retreive : Int :=
    min (detection_history.length : Int) majority_vote_window
  let detection_window_results := pySliceFrom detection_history (-results_to_retreive)
  let failed_detections := detection_window_results.filter (fun res => res.2 == "failure")
  decide (majority_vote_threshold ≤ (failed_detections.length : Int))

/-- A camera state carrying a given history, window and threshold (all other
fields at their defaults), used to state the majority-vote claims. -/
def voteState (h : List (Int × String)) (W T : Int) : CameraState :=
  { defaultCameraState "cam" "0" with
      detection_history := h
      majority_vote_window := W
      majority_vote_threshold := T }

/-- Spec-side definition (from the words of the spec, for comparison with the
code): the last `min (length h) W` entries of `h`. -/
def specLastWindow (h : List (Int × String)) (W : Int) : List (Int × String) :=
  h.drop (h.length - min h.length W.toNat)

/-- Spec-side definition: the number of `"failure"` labels in a window. -/
def countFailures (l : List (Int × String)) : Nat :=
  (l.filter (fun res => res.2 == "failure")).length

/-- Spec-side definition of the majority-vote pass condition: at least `T`
failures among the last `min (length h) W` entries. -/
def specMajorityPass (h : List (Int × String)) (W T : Int) : Bool :=
  decide (T ≤ (countFailures (specLastWindow h W) : Int))

/-- The example history of the spec:
`[(t0, failure), (t1, success), (t2, failure), (t3, failure)]`. -/
def exampleHistory : List (Int × String) :=
  [(0, "failure"), (1, "success"), (2, "failure"), (3, "failure")]

/-! ## Bounded detection history:
`CameraStateManager.update_camera_detection_history` -/

/-- The history cap of `update_camera_detection_history`
(`plugin3.6.x/Code/dsf/utils/camera_state_manager.py`, `max_history = 10000`). -/
def MAX_HISTORY : Nat := 10000

/-- One append step of `update_camera_detection_history` with cap `cap`:
append `(time_val, pred)`, then, if the length exceeds the cap, keep the last
`cap` entries (`history[-cap:]`). -/
def appendDetectionTrim (cap : Nat) (history : List (Int × String))
    (time_val : Int) (pred : String) : List (Int × String) :=
  let h := history ++ [(time_val, pred)]
  if cap < h.length then h.drop (h.length - cap) else h

/-- The history produced by the code after a sequence of appends, with cap
`cap`, starting from an empty history. -/
def runAppendsWith (cap : Nat) (appends : List (Int × String)) :
    List (Int × String) :=
  appends.foldl (fun h p => appendDetectionTrim cap h p.1 p.2) []

/-- The history produced by `update_camera_detection_history` after a sequence
of appends, starting from an empty history (cap fixed at 10000 as in the code). -/
def runDetectionAppends (appends : List (Int × String)) : List (Int × String) :=
  runAppendsWith MAX_HISTORY appends

/-- A concrete sequence of seven appends, for the cap-5 eviction example. -/
def sevenAppends : List (Int × String) :=
  [(1, "a"), (2, "b"), (3, "c"), (4, "d"), (5, "e"), (6, "f"), (7, "g")]

/-! ## Outbound event dispatch throttling:
`sse_utils.append_new_outbound_packet` / `append_new_outbound_packet_force` -/

/-- `MIN_SSE_DISPATCH_DELAY_MS` from `utils/config.py`. -/
def MIN_SSE_DISPATCH_DELAY_MS : Int := 100

/-- The state touched by the dispatch functions: the module-level
`_last_dispatch_times` dictionary (with the `.get(type, 0)` default folded in
as a total function) and the `app.state.outbound_queue`.  A queued packet is
recorded as its event type together with its payload (the code wraps the
payload in a JSON envelope carrying exactly these two pieces of data). -/
structure SSEBusState where
  last_dispatch_times : SSEDataType → Int
  outbound_queue : List (SSEDataType × String)

/-- The bus state at startup: no dispatch times recorded, empty queue. -/
def startBusState : SSEBusState :=
  { last_dispatch_times := fun _ => 0, outbound_queue := [] }

/-- Embedding of `append_new_outbound_packet`
(`plugin3.6.x/Code/dsf/utils/sse_utils.py`): drop the packet when less than
`min_sse_dispatch_delay` elapsed since the recorded dispatch time of this
type, else enqueue it and record `current_time` for this type. -/
def append_new_outbound_packet (min_sse_dispatch_delay current_time : Int)
    (packet : String) (sse_data_type : SSEDataType) (s : SSEBusState) : SSEBusState :=
  let last_dispatch_time := s.last_dispatch_times sse_data_type
  let time_since_last_dispatch := current_time - last_dispatch_time
  if time_since_last_dispatch < min_sse_dispatch_delay then s
  else
    { outbound_queue := s.outbound_queue ++ [(sse_data_type, packet)]
      last_dispatch_times := fun t =>
        if t = sse_data_type then current_time else s.last_dispatch_times t }

/-- Embedding of `append_new_outbound_packet_force`: always enqueue, and
record the dispatch time for the type. -/
def append_new_outbound_packet_force (current_time : Int) (packet : String)
    (sse_data_type : SSEDataType) (s : SSEBusState) : SSEBusState :=
  { outbound_queue := s.outbound_queue ++ [(sse_data_type, packet)]
    last_dispatch_times := fun t =>
      if t = sse_data_type then current_time else s.last_dispatch_times t }

/-- A sequence of non-forced dispatch calls `(time, type, payload)` starting
from the startup bus state, with throttle interval `min_delay`. -/
def runDispatch (min_delay : Int) (calls : List (Int × SSEDataType × String)) :
    SSEBusState :=
  calls.foldl
    (fun s c => append_new_outbound_packet min_delay c.1 c.2.2 c.2.1 s)
    startBusState

/-! ## Stream optimizer: `stream_utils.StreamOptimizer._get_current_settings` -/

/-- Streaming constants from `utils/config.py`. -/
def STREAM_MAX_FPS : Int := 30

/-- `STREAM_TUNNEL_FPS` from `utils/config.py`. -/
def STREAM_TUNNEL_FPS : Int := 10

/-- `STREAM_JPEG_QUALITY` from `utils/config.py`. -/
def STREAM_JPEG_QUALITY : Int := 85

/-- `STREAM_TUNNEL_JPEG_QUALITY` from `utils/config.py`. -/
def STREAM_TUNNEL_JPEG_QUALITY : Int := 60

/-- `STREAM_MAX_WIDTH` from `utils/config.py`. -/
def STREAM_MAX_WIDTH : Int := 1280

/-- `STREAM_TUNNEL_MAX_WIDTH` from `utils/config.py`. -/
def STREAM_TUNNEL_MAX_WIDTH : Int := 640

/-- `DETECTION_INTERVAL_MS = 1000 / DETECTIONS_PER_SECOND` (15). -/
def DETECTION_INTERVAL_MS : Rat := 1000 / 15

/-- `DETECTION_TUNNEL_INTERVAL_MS = 1000 / DETECTIONS_PER_SECOND` (identical to
the local value in `utils/config.py`). -/
def DETECTION_TUNNEL_INTERVAL_MS : Rat := 1000 / 15

/-- The configuration keys read by `_get_current_settings`: `None` models an
absent key (the `config.get(key, default)` fallback applies). -/
structure OptimizerConfig where
  startup_mode : SiteStartupMode := .local
  tunnel_provider : Option String := none
  stream_optimize_for_tunnel : Option Bool := none
  stream_tunnel_fps : Option Int := none
  stream_max_fps : Option Int := none
  stream_jpeg_quality : Option Int := none
  stream_max_width : Option Int := none
  detection_interval_ms : Option Rat := none
deriving DecidableEq

/-- The dictionary built by `_get_current_settings`. -/
structure StreamSettings where
  max_fps : Int
  jpeg_quality : Int
  max_width : Int
  detection_interval_ms : Rat
  is_tunnel_mode : Bool
  startup_mode : SiteStartupMode
  tunnel_provider : Option String
deriving DecidableEq

/-- Embedding of the Python comparison
`startup_mode == (SiteStartupMode.TUNNEL and tunnel_provider is not None)`
as it is parenthesised in `stream_utils.py`.  In Python the enum member
`SiteStartupMode.TUNNEL` (the non-empty string "tunnel") is truthy, so the
inner `and` evaluates to its second operand, the boolean
`tunnel_provider is not None`; a `SiteStartupMode` value (a str-enum) never
compares equal to a `bool`, so the outer `==` is `False` for every startup
mode and every provider. -/
def pyEqStartupModeBool (_startup_mode : SiteStartupMode)
    (_tunnel_provider_is_not_none : Bool) : Bool :=
  false

/-- The `is_tunnel_mode` computation of `_get_current_settings`: the explicit
override wins when present, else the (mis-parenthesised) derived comparison. -/
def computeIsTunnelMode (config : OptimizerConfig) : Bool :=
  match config.stream_optimize_for_tunnel with
  | some optimize_for_tunnel => optimize_for_tunnel
  | none => pyEqStartupModeBool config.startup_mode config.tunnel_provider.isSome

/-- The settings dictionary recomputed by `_get_current_settings` once the
30-second gate has passed. -/
def recomputeSettings (config : OptimizerConfig) : StreamSettings :=
  let is_tunnel_mode := computeIsTunnelMode config
  let default_fps :=
    if is_tunnel_mode then config.stream_tunnel_fps.getD STREAM_TUNNEL_FPS
    else config.stream_max_fps.getD STREAM_MAX_FPS
  let default_quality :=
    if is_tunnel_mode then STREAM_TUNNEL_JPEG_QUALITY else STREAM_JPEG_QUALITY
  let default_width :=
    if is_tunnel_mode then STREAM_TUNNEL_MAX_WIDTH else STREAM_MAX_WIDTH
  let default_detection_interval :=
    if is_tunnel_mode then DETECTION_TUNNEL_INTERVAL_MS else DETECTION_INTERVAL_MS
  { max_fps := default_fps
    jpeg_quality := config.stream_jpeg_quality.getD default_quality
    max_width := config.stream_max_width.getD default_width
    detection_interval_ms := config.detection_interval_ms.getD default_detection_interval
    is_tunnel_mode := is_tunnel_mode
    startup_mode := config.startup_mode
    tunnel_provider := config.tunnel_provider }

/-- The mutable fields of `StreamOptimizer`: `_config_cache` (`none` models the
initial empty dictionary) and `_last_config_check` (initially 0). -/
structure OptimizerState where
  config_cache : Option StreamSettings := none
  last_config_check : Rat := 0
deriving DecidableEq

/-- `_config_check_interval = 30.0`. -/
def CONFIG_CHECK_INTERVAL : Rat := 30

/-- Embedding of `_get_current_settings`: recompute when more than 30 seconds
have passed since the last check, else return the cached value unchanged. -/
def getCurrentSettings (st : OptimizerState) (config : OptimizerConfig)
    (current_time : Rat) : Option StreamSettings × OptimizerState :=
  if CONFIG_CHECK_INTERVAL < current_time - st.last_config_check then
    let settings := recomputeSettings config
    (some settings,
      { config_cache := some settings, last_config_check := current_time })
  else
    (st.config_cache, st)

/-- The configuration of the C6 failing input: override unset, startup mode
tunnel, a tunnel provider configured. -/
def tunnelConfigExample : OptimizerConfig :=
  { startup_mode := .tunnel
    tunnel_provider := some "cloudflare"
    stream_optimize_for_tunnel := none }

/-! ## Camera state store: `CameraStateManager.get_camera_state` -/

/-- The keyword arguments relevant to pydantic validation of
`CameraState(**data)`: `nickname` and `source` are the only fields declared
without a default (every other field has a pydantic default or is injected by
the custom `__init__` from config constants). -/
structure CameraStateKwargs where
  nickname : Option String := none
  source : Option String := none

/-- Embedding of `CameraState(**data)` construction including pydantic
validation: absent `nickname` or `source` raises a `ValidationError`;
with both present the record is built with all remaining defaults. -/
def mkCameraState (kwargs : CameraStateKwargs) : Except String CameraState :=
  match kwargs.nickname, kwargs.source with
  | some n, some s => .ok (defaultCameraState n s)
  | none, _ => .error "ValidationError: nickname is a required field"
  | some _, none => .error "ValidationError: source is a required field"

/-- Dictionary lookup in the `_states` map. -/
def lookupState (states : List (String × CameraState)) (camera_uuid : String) :
    Option CameraState :=
  (states.find? (fun p => p.1 = camera_uuid)).map (fun p => p.2)

/-- Dictionary assignment `self._states[camera_uuid] = st`. -/
def setState (states : List (String × CameraState)) (camera_uuid : String)
    (st : CameraState) : List (String × CameraState) :=
  if (states.find? (fun p => p.1 = camera_uuid)).isSome then
    states.map (fun p => if p.1 = camera_uuid then (camera_uuid, st) else p)
  else
    states ++ [(camera_uuid, st)]

/-- Embedding of `CameraStateManager.get_camera_state`
(`plugin3.6.x/Code/dsf/utils/camera_state_manager.py`): when the uuid is
absent or `reset` is requested, the code executes
`self._states[camera_uuid] = CameraState()`; the validation failure of
`CameraState()` propagates to the caller.  Otherwise the stored record is
returned along with the unchanged map. -/
def get_camera_state (states : List (String × CameraState))
    (camera_uuid : String) (reset : Bool) :
    Except String (CameraState × List (String × CameraState)) :=
  if (lookupState states camera_uuid).isNone || reset then
    match mkCameraState {} with
    | .ok st => .ok (st, setState states camera_uuid st)
    | .error e => .error e
  else
    match lookupState states camera_uuid with
    | some st => .ok (st, states)
    | none => .error "unreachable"

/-! ## Shared video stream: `SharedVideoStream._capture_loop` and
`get_frame_info` (`plugin3.6.x/Code/dsf/utils/shared_video_stream.py`) -/

/-- The mutable fields of a `SharedVideoStream` instance together with the
local `consecutive_failures` counter of its capture loop, plus `loop_active`,
which models whether the capture thread is still inside its `while` loop
(`thread.is_alive()`).  Frames are abstracted to natural numbers. -/
structure StreamState where
  latest_frame : Option Nat := none
  is_running : Bool := false
  last_frame_time : Int := 0
  frame_count : Nat := 0
  consecutive_failures : Nat := 0
  loop_active : Bool := false
deriving DecidableEq

/-- The outcome of one `cap.read()` call: a frame captured at a time, or a
failed read. -/
inductive ReadEvent
  | success (frame : Nat) (t : Int)
  | failure
deriving DecidableEq

/-- `max_consecutive_failures = 10` in `_capture_loop`. -/
def MAX_CONSECUTIVE_FAILURES : Nat := 10

/-- One iteration of the `while self.is_running` body of `_capture_loop`:
if the loop has already exited nothing happens; if `is_running` was cleared
the loop exits; a failed read increments the counter and, at the threshold,
breaks out of the loop (without touching `is_running`); a successful read
resets the counter and overwrites the frame slot. -/
def captureStep (s : StreamState) (e : ReadEvent) : StreamState :=
  if s.loop_active = false then s
  else if s.is_running = false then { s with loop_active := false }
  else
    match e with
    | .failure =>
      let consecutive_failures := s.consecutive_failures + 1
      if MAX_CONSECUTIVE_FAILURES ≤ consecutive_failures then
        { s with consecutive_failures := consecutive_failures
                 loop_active := false }
      else
        { s with consecutive_failures := consecutive_failures }
    | .success frame t =>
      { s with consecutive_failures := 0
               latest_frame := some frame
               last_frame_time := t
               frame_count := s.frame_count + 1 }

/-- The capture loop run over a sequence of read outcomes. -/
def runCapture (s : StreamState) (events : List ReadEvent) : StreamState :=
  events.foldl captureStep s

/-- A stream after `start()`: the running flag is set and the capture thread
has entered its loop. -/
def startedStream : StreamState :=
  { is_running := true, loop_active := true }

/-- The `is_healthy` field computed by `get_frame_info`:
`self.is_running and time.time() - self.last_frame_time < 5.0`. -/
def isHealthy (s : StreamState) (now : Int) : Bool :=
  s.is_running && decide (now - s.last_frame_time < 5)

/-- The event sequence of the C5 counterexample: one good frame at time 0,
then ten consecutive failed reads. -/
def tenFailures : List ReadEvent :=
  ReadEvent.success 1 0 :: List.replicate 10 ReadEvent.failure

/-! ## Outbound event fan-out: `sse_routes.sse_connect` draining
`app.state.outbound_queue` through `outbound_packet_fetch` -/

/-- The single `app.state.outbound_queue` (an `asyncio.Queue`): its buffered
items and the FIFO of clients currently blocked in `await queue.get()` inside
their own `outbound_packet_fetch` generator.  In asyncio a getter only blocks
while the queue is empty, and `put` wakes exactly the longest-waiting getter,
which consumes the item. -/
structure QueueState where
  items : List String := []
  getters : List Nat := []
deriving DecidableEq

/-- A run of the event channel: the queue plus the log of deliveries
`(client, packet)` in the order they happened. -/
structure ChannelRun where
  queue : QueueState := {}
  delivered : List (Nat × String) := []
deriving DecidableEq

/-- `await queue.put(pkt)`: the item joins the buffer; if a getter is waiting
(the buffer is then empty), the head getter is woken and consumes the head
item.  Each item is consumed by exactly one getter. -/
def queuePut (b : ChannelRun) (pkt : String) : ChannelRun :=
  match b.queue.getters, b.queue.items ++ [pkt] with
  | c :: grest, x :: irest =>
    { queue := { items := irest, getters := grest }
      delivered := b.delivered ++ [(c, x)] }
  | [], items2 => { b with queue := { b.queue with items := items2 } }
  | _ :: _, [] => b

/-- One `await queue.get()` by client `c` (the loop body of
`outbound_packet_fetch`): consume the head buffered item, or join the FIFO of
waiting getters. -/
def queueGet (b : ChannelRun) (c : Nat) : ChannelRun :=
  match b.queue.items with
  | x :: rest =>
    { queue := { b.queue with items := rest }
      delivered := b.delivered ++ [(c, x)] }
  | [] => { b with queue := { b.queue with getters := b.queue.getters ++ [c] } }

/-- An interleaving of channel operations: producer puts and per-client gets. -/
inductive ChannelOp
  | put (pkt : String)
  | get (client : Nat)
deriving DecidableEq

/-- Apply one channel operation. -/
def channelStep (b : ChannelRun) : ChannelOp → ChannelRun
  | .put pkt => queuePut b pkt
  | .get c => queueGet b c

/-- Run a sequence of channel operations. -/
def runChannel (b : ChannelRun) (ops : List ChannelOp) : ChannelRun :=
  ops.foldl channelStep b

/-- The payloads enqueued by a sequence of operations, in order. -/
def putsOf (ops : List ChannelOp) : List String :=
  ops.filterMap (fun op => match op with | .put pkt => some pkt | _ => none)

/-! ## Runtime attribute merge: `CameraStateManager.update_camera_state` -/

/-- The attribute names of the pydantic `CameraState` object, as tested by
`hasattr` in `update_camera_state`. -/
inductive CameraField
  | nickname
  | source
  | lock
  | current_alert_id
  | detection_history
  | live_detection_running
  | live_detection_task
  | last_result
  | last_time
  | start_time
  | error
  | brightness
  | contrast
  | focus
  | sensitivity
  | countdown_time
  | countdown_action
  | majority_vote_threshold
  | majority_vote_window
  | printer_id
  | printer_config
deriving DecidableEq

/-- A runtime Python value assignable to a camera-state attribute.  pydantic
does not validate assignments (`validate_assignment` is off), so any value can
land in any field; the constructors cover the value shapes the callers pass. -/
inductive PyValue
  | str (s : String)
  | num (n : Int)
  | boolean (b : Bool)
  | pynone
  | hist (entries : List (Int × String))
deriving DecidableEq

/-- The attribute table of `CameraState`: names paired with fields. -/
def fieldPairs : List (String × CameraField) :=
  [("nickname", .nickname), ("source", .source), ("lock", .lock),
   ("current_alert_id", .current_alert_id),
   ("detection_history", .detection_history),
   ("live_detection_running", .live_detection_running),
   ("live_detection_task", .live_detection_task),
   ("last_result", .last_result), ("last_time", .last_time),
   ("start_time", .start_time), ("error", .error),
   ("brightness", .brightness), ("contrast", .contrast), ("focus", .focus),
   ("sensitivity", .sensitivity), ("countdown_time", .countdown_time),
   ("countdown_action", .countdown_action),
   ("majority_vote_threshold", .majority_vote_threshold),
   ("majority_vote_window", .majority_vote_window),
   ("printer_id", .printer_id), ("printer_config", .printer_config)]

/-- The declared-field table lookup: resolve a string key to the pydantic
field it names, if any.  (This is only the declared-field part of the
attribute namespace; `attrKind` below embeds the full `hasattr`/`setattr`
behaviour, including non-field attributes.) -/
def fieldOfName (name : String) : Option CameraField :=
  (fieldPairs.find? (fun p => p.1 = name)).map (fun p => p.2)

/-- The canonical attribute name of a field. -/
def fieldName (f : CameraField) : String :=
  match f with
  | .nickname => "nickname"
  | .source => "source"
  | .lock => "lock"
  | .current_alert_id => "current_alert_id"
  | .detection_history => "detection_history"
  | .live_detection_running => "live_detection_running"
  | .live_detection_task => "live_detection_task"
  | .last_result => "last_result"
  | .last_time => "last_time"
  | .start_time => "start_time"
  | .error => "error"
  | .brightness => "brightness"
  | .contrast => "contrast"
  | .focus => "focus"
  | .sensitivity => "sensitivity"
  | .countdown_time => "countdown_time"
  | .countdown_action => "countdown_action"
  | .majority_vote_threshold => "majority_vote_threshold"
  | .majority_vote_window => "majority_vote_window"
  | .printer_id => "printer_id"
  | .printer_config => "printer_config"

/-- A camera record as a runtime object: an assignment of a value to every
declared field.  (Writes that pydantic routes past the fields through
`object.__setattr__` — underscore and dunder attributes — live in the
instance dictionary outside the declared fields and are not observed by any
reader of the record, so they are not tracked here.) -/
def CameraStateObj : Type := CameraField → PyValue

/-- `setattr(camera_state_ref, f, v)` on a declared field (pydantic v2 does
not validate assignments to declared fields here: `validate_assignment` is
off, so any value lands in the field). -/
def setattrField (obj : CameraStateObj) (f : CameraField) (v : PyValue) :
    CameraStateObj :=
  fun g => if g = f then v else obj g

/-- How a string key relates to the attribute namespace of a pydantic-v2
`CameraState` instance. -/
inductive AttrKind
  | declared (f : CameraField)
  | nonFieldAttr
  | dunderAttr
  | absent
deriving DecidableEq

/-- Non-field attributes inherited from `pydantic.BaseModel`: the `model_*`
API of pydantic v2 and the deprecated v1-compatibility methods.  `hasattr`
is true for every name in this table, and assigning any of them raises. -/
def pydanticModelAttrNames : List String :=
  ["model_config", "model_fields", "model_fields_set", "model_extra",
   "model_construct", "model_copy", "model_dump", "model_dump_json",
   "model_json_schema", "model_parametrized_name", "model_post_init",
   "model_rebuild", "model_validate", "model_validate_json",
   "model_validate_strings",
   "dict", "json", "copy", "construct", "schema", "schema_json",
   "parse_obj", "parse_raw", "parse_file", "from_orm",
   "update_forward_refs", "validate"]

/-- Dunder attributes present on every `CameraState` instance or class:
`hasattr` is true, and pydantic routes their assignment through
`object.__setattr__` (mutating the instance namespace, no declared field
changes and no exception). -/
def dunderAttrNames : List String :=
  ["__dict__", "__class__", "__doc__", "__module__", "__init__",
   "__fields__", "__fields_set__", "__pydantic_fields__",
   "__pydantic_fields_set__", "__pydantic_extra__", "__pydantic_private__",
   "__private_attributes__"]

/-- Embedding of the `hasattr(camera_state_ref, key)` guard together with the
pydantic-v2 `__setattr__` behaviour behind it:
a key naming a declared field is assigned;
a key naming a non-field attribute of the pydantic object — the `model_*`
BaseModel API (`model_dump`, `model_config`, ...) and the v1-compatibility
methods — passes the `hasattr` guard, and `setattr` raises `ValueError`
because the name is no field and `extra` is not `allow`;
a dunder name present on the object passes the guard and is written through
`object.__setattr__`, leaving every declared field unchanged;
any other key is not an attribute, so `hasattr` is false and the code logs
and ignores it. -/
def attrKind (key : String) : AttrKind :=
  match fieldOfName key with
  | some f => .declared f
  | none =>
    if key ∈ pydanticModelAttrNames then
      .nonFieldAttr
    else if key ∈ dunderAttrNames then
      .dunderAttr
    else
      .absent

/-- The message of the `ValueError` raised by the pydantic-v2 `__setattr__`
for a non-field attribute name. -/
def setattrValueError (key : String) : String :=
  "ValueError: CameraState object has no field " ++ key

/-- The merge loop of `update_camera_state` on an existing record: for each
`(key, value)` of `new_states`, in order, set the declared field when the
key names one; log and ignore a key that is no attribute; let the
`ValueError` of a non-field attribute assignment propagate, aborting the
loop (keys already processed stay applied, no record is returned); write a
dunder attribute past the declared fields. -/
def update_camera_state_merge (obj : CameraStateObj) :
    List (String × PyValue) → Except String CameraStateObj
  | [] => .ok obj
  | kv :: rest =>
    match attrKind kv.1 with
    | .declared f => update_camera_state_merge (setattrField obj f kv.2) rest
    | .nonFieldAttr => .error (setattrValueError kv.1)
    | .dunderAttr => update_camera_state_merge obj rest
    | .absent => update_camera_state_merge obj rest

/-- Dictionary lookup in a map of runtime camera objects. -/
def lookupObj (states : List (String × CameraStateObj)) (camera_uuid : String) :
    Option CameraStateObj :=
  (states.find? (fun p => p.1 = camera_uuid)).map (fun p => p.2)

/-- Store-level `update_camera_state` on a present id: the stored record is
mutated in place (the map keeps the same entry, now holding the merged
record) and that same record is returned; a `ValueError` raised by the merge
propagates to the caller and no record is returned.  The absent-id branch
constructs `CameraState(**new_states)` and is outside this operation (see
`get_camera_state_raises_on_absent_id` for its validation behaviour). -/
def updateCameraStateObj (states : List (String × CameraStateObj))
    (camera_uuid : String) (new_states : List (String × PyValue)) :
    Option (Except String (CameraStateObj × List (String × CameraStateObj))) :=
  match states.find? (fun p => p.1 = camera_uuid) with
  | some p =>
    match update_camera_state_merge p.2 new_states with
    | .ok updated =>
      some (.ok (updated,
        states.map (fun q => if q.1 = camera_uuid then (camera_uuid, updated) else q)))
    | .error e => some (.error e)
  | none => none

/-! ## Alert lifecycle: `app.state.alerts`, the detection-loop test-and-set,
`dismiss_alert`, `_terminate_alert_after_cooldown` and the start/stop routes -/

/-- `Alert` from `models.py`, with the fields the lifecycle operations read.
The id is the pair (camera uuid, generated unique suffix); the code writes it
as `f"{camera_uuid}_{uuid4()}"`. -/
structure Alert where
  id : String × String
  camera_uuid : String
  timestamp : Int
  countdown_time : Int
  countdown_action : AlertAction
deriving DecidableEq

/-- The global state of the alert subsystem: the `app.state.alerts` dictionary
(as a list of alerts keyed by their ids), the camera state store, the set of
detection ticks that have won the test-and-set but not yet registered their
alert (their `_create_alert_and_notify` call is still in flight), and the log
of `suspend_print_job` invocations (the external printer capability). -/
structure SysState where
  alerts : List Alert := []
  cameras : List (String × CameraState) := []
  pending_creates : List (String × String) := []
  suspend_calls : List (String × AlertAction) := []
deriving DecidableEq

/-- The initial application state: no alerts, no cameras, nothing in flight. -/
def initSys : SysState := {}

/-- Camera lookup in the state store. -/
def lookupCamera (s : SysState) (camera_uuid : String) : Option CameraState :=
  (s.cameras.find? (fun p => p.1 = camera_uuid)).map (fun p => p.2)

/-- In-place mutation of a present camera record (`update_camera_state` on a
present id); on an absent id the store map is unchanged (the absent
branch of the code constructs `CameraState(**new_states)`, which raises, see C8). -/
def modifyCamera (s : SysState) (camera_uuid : String)
    (f : CameraState → CameraState) : SysState :=
  let cameras2 := s.cameras.map
    (fun p => if p.1 = camera_uuid then (camera_uuid, f p.2) else p)
  { s with cameras := cameras2 }

/-- `get_alert(alert_id)`: dictionary lookup in `app.state.alerts`. -/
def getAlert (s : SysState) (alert_id : String × String) : Option Alert :=
  s.alerts.find? (fun a => a.id = alert_id)

/-- Removing the entry `app.state.alerts[alert_id]` (`del` on the dict). -/
def removeAlertRecords (s : SysState) (alert_id : String × String) : SysState :=
  { s with alerts := s.alerts.filter (fun a => a.id ≠ alert_id) }

/-- Registering a new alert: `app.state.alerts[alert.id] = alert`. -/
def addAlertRecord (s : SysState) (a : Alert) : SysState :=
  { s with alerts := s.alerts ++ [a] }

/-- A detection tick entering its `_create_alert_and_notify` call. -/
def addPending (s : SysState) (e : String × String) : SysState :=
  { s with pending_creates := s.pending_creates ++ [e] }

/-- A detection tick completing its `_create_alert_and_notify` call. -/
def removePending (s : SysState) (e : String × String) : SysState :=
  { s with pending_creates := s.pending_creates.erase e }

/-- An invocation of the external `suspend_print_job` capability. -/
def logSuspend (s : SysState) (camera_uuid : String) (action : AlertAction) :
    SysState :=
  { s with suspend_calls := s.suspend_calls ++ [(camera_uuid, action)] }

/-- `update_camera_state(camera_uuid, {"current_alert_id": None})`. -/
def clearSlot (c : CameraState) : CameraState :=
  { c with current_alert_id := .empty }

/-- The test-and-set writing the Python `True` into `current_alert_id`. -/
def claimSlot (c : CameraState) : CameraState :=
  { c with current_alert_id := .claimed }

/-- `update_camera_state(camera_uuid, {"current_alert_id": alert_id})`. -/
def writeSlot (alert_id : String × String) (c : CameraState) : CameraState :=
  { c with current_alert_id := .ident alert_id }

/-- The `Alert` built by `_create_alert_and_notify` from the current
countdown settings of the camera. -/
def mkAlert (camera_uuid suffix : String) (t : Int)
    (camera_state_ref : CameraState) : Alert :=
  { id := (camera_uuid, suffix)
    camera_uuid := camera_uuid
    timestamp := t
    countdown_time := camera_state_ref.countdown_time
    countdown_action := camera_state_ref.countdown_action }

/-- The field resets performed by `start_live_detection` before (re)starting
the loop: clear the alert slot, history, last result/time and error, then set
the start time and the running flag. -/
def resetForStart (now : Int) (c : CameraState) : CameraState :=
  { c with current_alert_id := .empty
           detection_history := []
           last_result := none
           last_time := none
           error := none
           start_time := some now
           live_detection_running := true }

/-- The field updates performed by `stop_live_detection`. -/
def clearRunning (c : CameraState) : CameraState :=
  { c with start_time := none, live_detection_running := false }

/-- The per-camera effect of `update_camera_detection_history`. -/
def appendHistory (pred : String) (t : Int) (c : CameraState) : CameraState :=
  { c with detection_history :=
      appendDetectionTrim MAX_HISTORY c.detection_history t pred }

/-- Embedding of `dismiss_alert` (`3.6.x/code/dsf/utils/alert_utils.py`):
if the id is present, delete the alert, recover the camera uuid from the id
prefix (splitting the id string at the first underscore) and clear the
`current_alert_id` of that camera, returning `True`; otherwise return
`False` and change nothing. -/
def dismiss_alert (s : SysState) (alert_id : String × String) :
    Bool × SysState :=
  if s.alerts.any (fun a => a.id = alert_id) then
    (true, modifyCamera (removeAlertRecords s alert_id) alert_id.1 clearSlot)
  else
    (false, s)

/-- Embedding of `_terminate_alert_after_cooldown`
(`3.6.x/code/dsf/utils/detection_utils.py`) at the moment its timer fires:
a no-op when the alert no longer exists or its camera has no record;
otherwise the current `countdown_action` of the camera decides: DISMISS
dismisses, CANCEL_PRINT or PAUSE_PRINT invokes `suspend_print_job` and then
dismisses. -/
def terminate_alert_after_cooldown (s : SysState)
    (alert_id : String × String) : SysState :=
  match getAlert s alert_id with
  | none => s
  | some alert =>
    match lookupCamera s alert.camera_uuid with
    | none => s
    | some camera_state =>
      match camera_state.countdown_action with
      | .dismiss => (dismiss_alert s alert_id).2
      | .cancel_print =>
        (dismiss_alert (logSuspend s alert.camera_uuid .cancel_print) alert_id).2
      | .pause_print =>
        (dismiss_alert (logSuspend s alert.camera_uuid .pause_print) alert_id).2

/-- The locked test-and-set of `create_optimized_detection_loop`
(`plugin3.6.x/Code/dsf/utils/stream_utils.py`), run by a detection tick whose
prediction is the defect class: under the camera lock, when
`current_alert_id is None` and the majority vote passes, write `True` into
the slot and let the tick proceed to `_create_alert_and_notify` (recorded as
a pending creation); otherwise nothing happens. -/
def claim_alert_slot (s : SysState) (camera_uuid suffix : String) : SysState :=
  match lookupCamera s camera_uuid with
  | none => s
  | some camera_state_ref =>
    if camera_state_ref.current_alert_id = .empty
        ∧ passedMajorityVote camera_state_ref then
      addPending (modifyCamera s camera_uuid claimSlot) (camera_uuid, suffix)
    else
      s

/-- Embedding of `_create_alert_and_notify` for a tick that won the
test-and-set: build the alert from the current countdown settings,
register it in `app.state.alerts`, schedule `_terminate_alert_after_cooldown`
(the `timerFire` operation models the timer firing later) and write the alert
id into the `current_alert_id` slot of the camera. -/
def create_alert_and_notify (s : SysState) (camera_uuid suffix : String)
    (t : Int) : SysState :=
  if (camera_uuid, suffix) ∈ s.pending_creates then
    match lookupCamera s camera_uuid with
    | none => s
    | some camera_state_ref =>
      addAlertRecord
        (removePending
          (modifyCamera s camera_uuid (writeSlot (camera_uuid, suffix)))
          (camera_uuid, suffix))
        (mkAlert camera_uuid suffix t camera_state_ref)
  else
    s

/-- `add_camera` (`camera_utils.py`): a fresh uuid4 is generated and a new
default record stored; a generated uuid is never already present, so the
present case is a no-op here. -/
def apply_add_camera (s : SysState) (camera_uuid nickname source : String) :
    SysState :=
  if (s.cameras.find? (fun p => p.1 = camera_uuid)).isSome then s
  else { s with cameras := s.cameras ++ [(camera_uuid, defaultCameraState nickname source)] }

/-- `start_live_detection` (`3.6.x/code/dsf/routes/detection_routes.py`):
already-running is a no-op; otherwise the route resets `current_alert_id`,
history, last result/time and error — without dismissing any existing alert —
and then sets the start time and the running flag.  (On an absent id the
`get_camera_state` call of the route raises, see C8, and nothing is
mutated.) -/
def apply_start_live (s : SysState) (camera_uuid : String) (now : Int) :
    SysState :=
  match lookupCamera s camera_uuid with
  | none => s
  | some camera_state =>
    if camera_state.live_detection_running then s
    else modifyCamera s camera_uuid (resetForStart now)

/-- `stop_live_detection`: not-running is a no-op; otherwise clear the start
time and the running flag (the loop observes the flag and exits). -/
def apply_stop_live (s : SysState) (camera_uuid : String) : SysState :=
  match lookupCamera s camera_uuid with
  | none => s
  | some camera_state =>
    if camera_state.live_detection_running then
      modifyCamera s camera_uuid clearRunning
    else s

/-- `update_camera_detection_history` as invoked by a detection tick: append
the labelled prediction to the bounded history of the present camera. -/
def apply_append_detection (s : SysState) (camera_uuid pred : String)
    (t : Int) : SysState :=
  modifyCamera s camera_uuid (appendHistory pred t)

/-- The operations of the alert subsystem exercised by the claims. -/
inductive SysOp
  | addCamera (camera_uuid nickname source : String)
  | startLive (camera_uuid : String) (now : Int)
  | stopLive (camera_uuid : String)
  | appendDetection (camera_uuid pred : String) (t : Int)
  | claimAlert (camera_uuid suffix : String)
  | createAlert (camera_uuid suffix : String) (t : Int)
  | dismissAlert (alert_id : String × String)
  | timerFire (alert_id : String × String)
deriving DecidableEq

/-- Apply one operation. -/
def applyOp (s : SysState) : SysOp → SysState
  | .addCamera u n src => apply_add_camera s u n src
  | .startLive u now => apply_start_live s u now
  | .stopLive u => apply_stop_live s u
  | .appendDetection u pred t => apply_append_detection s u pred t
  | .claimAlert u suffix => claim_alert_slot s u suffix
  | .createAlert u suffix t => create_alert_and_notify s u suffix t
  | .dismissAlert alert_id => (dismiss_alert s alert_id).2
  | .timerFire alert_id => terminate_alert_after_cooldown s alert_id

/-- Run a sequence of operations from a state. -/
def runSys (s : SysState) (ops : List SysOp) : SysState :=
  ops.foldl applyOp s

/-- The `current_alert_id` slot of a camera, when a record exists. -/
def currentSlot (s : SysState) (camera_uuid : String) : Option AlertSlot :=
  (lookupCamera s camera_uuid).map (fun c => c.current_alert_id)

/-- The number of non-dismissed alerts currently associated with a camera. -/
def aliveFor (s : SysState) (camera_uuid : String) : Nat :=
  (s.alerts.filter (fun a => a.camera_uuid = camera_uuid)).length

/-- The number of in-flight alert creations for a camera. -/
def pendingFor (s : SysState) (camera_uuid : String) : Nat :=
  (s.pending_creates.filter (fun p => p.1 = camera_uuid)).length

/-- The side condition under which an operation keeps the one-alert invariant:
starting live detection is safe only while the camera has no live alert and
no creation in flight (the route clears `current_alert_id` without dismissing
anything); every other operation is unconditionally safe. -/
def SafeOp (s : SysState) : SysOp → Prop
  | .startLive u _ => aliveFor s u + pendingFor s u = 0
  | _ => True

/-- The states reachable from startup through operations that respect the
`SafeOp` side condition. -/
inductive SafeReach : SysState → Prop
  | start : SafeReach initSys
  | step {s : SysState} (op : SysOp) (hs : SafeReach s) (hok : SafeOp s op) :
      SafeReach (applyOp s op)

/-- The inductive invariant of the alert subsystem: alert records carry their
camera in their id prefix; each camera has at most one live-or-in-flight
alert; an empty `current_alert_id` slot means no live or in-flight alert; a
camera with no record has none either. -/
def AlertInv (s : SysState) : Prop :=
  (∀ a ∈ s.alerts, a.camera_uuid = a.id.1) ∧
  ∀ u : String,
    aliveFor s u + pendingFor s u ≤ 1 ∧
    (∀ c, lookupCamera s u = some c → c.current_alert_id = .empty →
      aliveFor s u + pendingFor s u = 0) ∧
    (lookupCamera s u = none → aliveFor s u + pendingFor s u = 0)

/-- The C2 counterexample trace: create a camera, start detection, let two
defect ticks fill the history and raise alert a1; stop and restart live
detection (which clears the slot but not the alert); two more defect ticks
then raise a second alert a2 while a1 is still live. -/
def duplicateAlertTrace : List SysOp :=
  [.addCamera "c" "cam" "0",
   .startLive "c" 0,
   .appendDetection "c" "failure" 1,
   .appendDetection "c" "failure" 2,
   .claimAlert "c" "a1",
   .createAlert "c" "a1" 2,
   .stopLive "c",
   .startLive "c" 10,
   .appendDetection "c" "failure" 11,
   .appendDetection "c" "failure" 12,
   .claimAlert "c" "a2",
   .createAlert "c" "a2" 12]

/-! ## Theorems -/

/-- Helper: under `0 ≤ T ≤ W` the majority vote of the code agrees with the
spec-side reading "at least `T` failures among the last `min (length h) W`
entries".  (Outside this range they differ: for `W = 0 < T` the Python slice
`h[-0:]` is the whole history, not the last `0` entries.) -/
theorem passedMajorityVote_eq_spec (h : List (Int × String)) (W T : Int)
    (hT : 0 ≤ T) (hTW : T ≤ W) :
    passedMajorityVote (voteState h W T) = specMajorityPass h W T := by
  unfold passedMajorityVote specMajorityPass voteState defaultCameraState
  unfold specLastWindow countFailures pySliceFrom
  simp only []
  rcases eq_or_ne h [] with rfl | hne
  · simp
  · have hlen : 1 ≤ h.length := List.length_pos.mpr hne
    rcases lt_or_le 0 W with hW | hW
    · have hneg : ¬ (0 ≤ -(min (h.length : Int) W)) := by
        have : (0:Int) < min (h.length : Int) W := by
          rcases min_cases (h.length : Int) W with ⟨he, _⟩ | ⟨he, _⟩ <;> omega
        omega
      rw [if_neg hneg]
      have hAB : (max 0 ((h.length : Int) + -(min (h.length : Int) W))).toNat
          = h.length - min h.length W.toNat := by
        omega
      rw [hAB]
    · have hW0 : W = 0 := le_antisymm hW (by omega)
      have hT0 : T = 0 := le_antisymm (by omega) hT
      subst hW0; subst hT0
      simp

/-- C1, counterexample: the claim states that for empty history the majority
vote never passes, for every window and threshold.  With the default window 5
and threshold 0 the code returns `True` on an empty history (`0 ≥ 0`), so the
claim as stated is false. -/
theorem emptyHistory_passes_at_threshold_zero :
    passedMajorityVote (voteState [] 5 0) = true := by decide

/-- C1 (amended): for `0 ≤ T ≤ W`, the majority-vote check passes iff the
number of entries labelled "failure" among the last `min (length h) W` entries
of `h` is at least `T`; on the example history with window 3 it passes with
threshold 2 and fails with threshold 3; an empty history never passes provided
`1 ≤ T` (with `T = 0` it passes, see the counterexample). -/
theorem majority_vote_correct (h : List (Int × String)) (W T : Int)
    (hT : 0 ≤ T) (hTW : T ≤ W) :
    (passedMajorityVote (voteState h W T) = specMajorityPass h W T) ∧
    (h = [] → 1 ≤ T → passedMajorityVote (voteState h W T) = false) ∧
    passedMajorityVote (voteState exampleHistory 3 2) = true ∧
    passedMajorityVote (voteState exampleHistory 3 3) = false := by
  refine ⟨passedMajorityVote_eq_spec h W T hT hTW, ?_, by decide, by decide⟩
  rintro rfl hT1
  rw [passedMajorityVote_eq_spec [] W T hT hTW]
  unfold specMajorityPass specLastWindow countFailures
  simp
  omega

/-- Witness for C1: instantiates the amended theorem at `h = []`, `W = 5`,
`T = 2` and extracts the never-passes conclusion. -/
theorem majority_vote_correct_witness :
    passedMajorityVote (voteState [] 5 2) = false :=
  (majority_vote_correct [] 5 2 (by decide) (by decide)).2.1 rfl (by decide)

/-- Helper: the history after a sequence of appends with cap `cap`, starting
empty, is exactly the last `cap` appended entries (all of them while fewer). -/
theorem runAppendsWith_eq (cap : Nat) (appends : List (Int × String)) :
    runAppendsWith cap appends = appends.drop (appends.length - cap) := by
  induction appends using List.reverseRecOn with
  | nil => simp [runAppendsWith]
  | append_singleton l x ih =>
    have hstep : runAppendsWith cap (l ++ [x])
        = appendDetectionTrim cap (runAppendsWith cap l) x.1 x.2 := by
      simp [runAppendsWith, List.foldl_append]
    have hx : (x.1, x.2) = x := rfl
    rw [hstep, ih]
    unfold appendDetectionTrim
    simp only [hx]
    have hDlen : (List.drop (l.length - cap) l).length = l.length - (l.length - cap) :=
      List.length_drop ..
    rcases lt_or_le l.length cap with hlt | hle
    · have h0 : l.length - cap = 0 := by omega
      rw [h0, List.drop_zero]
      rw [if_neg (by simp; omega)]
      have h1 : (l ++ [x]).length - cap = 0 := by simp; omega
      rw [h1, List.drop_zero]
    · have hlen2 : (List.drop (l.length - cap) l ++ [x]).length
          = (l.length - (l.length - cap)) + 1 := by
        simp [hDlen]
      rw [if_pos (by rw [hlen2]; omega)]
      rw [hlen2]
      rw [← List.drop_append_of_le_length (show l.length - cap ≤ l.length by omega)]
      rw [List.drop_drop]
      congr 1
      simp only [List.length_append, List.length_singleton]
      omega

/-- C4: after every sequence of appends the detection history holds at most
10000 entries, and its contents are exactly the most recently appended entries
in append order (oldest evicted first); with cap 5, seven appends leave
exactly the last five in order. -/
theorem detection_history_bounded (appends : List (Int × String)) :
    (runDetectionAppends appends).length ≤ MAX_HISTORY ∧
    runDetectionAppends appends = appends.drop (appends.length - MAX_HISTORY) ∧
    runAppendsWith 5 sevenAppends = sevenAppends.drop 2 := by
  refine ⟨?_, runAppendsWith_eq MAX_HISTORY appends, by decide⟩
  rw [runDetectionAppends, runAppendsWith_eq MAX_HISTORY appends]
  have := List.length_drop (appends.length - MAX_HISTORY) appends
  omega

/-- C3: a non-forced dispatch call enqueues its packet iff at least the
minimum interval elapsed since the recorded time of the last enqueuing call of
that type (which starts at 0); a dropped call changes nothing; the force
variant always enqueues and updates the time of its own type only; with the
100 ms default, two same-type calls 10 ms apart enqueue exactly one packet,
and two calls 150 ms apart enqueue both. -/
theorem event_throttling_correct (min_delay current_time : Int) (packet : String)
    (ty : SSEDataType) (s : SSEBusState) :
    (current_time - s.last_dispatch_times ty < min_delay →
      append_new_outbound_packet min_delay current_time packet ty s = s) ∧
    (min_delay ≤ current_time - s.last_dispatch_times ty →
      (append_new_outbound_packet min_delay current_time packet ty s).outbound_queue
          = s.outbound_queue ++ [(ty, packet)] ∧
      (append_new_outbound_packet min_delay current_time packet ty s).last_dispatch_times ty
          = current_time ∧
      ∀ t, t ≠ ty →
        (append_new_outbound_packet min_delay current_time packet ty s).last_dispatch_times t
            = s.last_dispatch_times t) ∧
    ((append_new_outbound_packet_force current_time packet ty s).outbound_queue
        = s.outbound_queue ++ [(ty, packet)] ∧
      (append_new_outbound_packet_force current_time packet ty s).last_dispatch_times ty
          = current_time ∧
      ∀ t, t ≠ ty →
        (append_new_outbound_packet_force current_time packet ty s).last_dispatch_times t
            = s.last_dispatch_times t) ∧
    (∀ t0 p1 p2, MIN_SSE_DISPATCH_DELAY_MS ≤ t0 →
      (runDispatch 100 [(t0, ty, p1), (t0 + 10, ty, p2)]).outbound_queue = [(ty, p1)] ∧
      (runDispatch 100 [(t0, ty, p1), (t0 + 150, ty, p2)]).outbound_queue
          = [(ty, p1), (ty, p2)]) := by
  refine ⟨?_, ?_, ?_, ?_⟩
  · intro hlt
    unfold append_new_outbound_packet
    simp only [if_pos hlt]
  · intro hge
    unfold append_new_outbound_packet
    rw [if_neg (by omega)]
    refine ⟨rfl, by simp, ?_⟩
    intro t ht
    simp [ht]
  · refine ⟨rfl, by simp [append_new_outbound_packet_force], ?_⟩
    intro t ht
    simp [append_new_outbound_packet_force, ht]
  · intro t0 p1 p2 ht0
    have h100 : (100 : Int) ≤ t0 := ht0
    unfold runDispatch startBusState
    simp only [List.foldl_cons, List.foldl_nil]
    have hfirst : append_new_outbound_packet 100 t0 p1 ty
        { last_dispatch_times := fun _ => 0, outbound_queue := [] }
        = { outbound_queue := [(ty, p1)]
            last_dispatch_times := fun t => if t = ty then t0 else 0 } := by
      unfold append_new_outbound_packet
      rw [if_neg (by simp; omega)]
      simp
    rw [hfirst]
    constructor
    · unfold append_new_outbound_packet
      rw [if_pos (by simp)]
    · unfold append_new_outbound_packet
      rw [if_neg (by simp)]
      simp

/-- Witness for C3: at `min_delay = 100`, two `alert` packets 10 ms apart
starting at time 1000 result in exactly one queued packet. -/
theorem event_throttling_correct_witness :
    (runDispatch 100 [(1000, SSEDataType.alert, "p1"),
        (1010, SSEDataType.alert, "p2")]).outbound_queue
      = [(SSEDataType.alert, "p1")] := by
  have h := (event_throttling_correct 100 0 "p" SSEDataType.alert
    startBusState).2.2.2 1000 "p1" "p2" (by decide)
  have h10 : (1000 : Int) + 10 = 1010 := by decide
  rw [h10] at h
  exact h.1

/-- C6: evaluation of the embedded `_get_current_settings` at the failing
input.  With the tunnel override unset, the startup mode set to tunnel and a
tunnel provider configured, the claim requires the tunnel profile; the code
instead computes `startup_mode == (SiteStartupMode.TUNNEL and tunnel_provider
is not None)`, which is always false, and selects the local profile
(fps 30, quality 85, width 1280).  The explicit override `True` remains the
only route to the tunnel profile. -/
theorem tunnel_profile_never_derived :
    computeIsTunnelMode tunnelConfigExample = false ∧
    (recomputeSettings tunnelConfigExample).is_tunnel_mode = false ∧
    (recomputeSettings tunnelConfigExample).max_fps = STREAM_MAX_FPS ∧
    (recomputeSettings tunnelConfigExample).jpeg_quality = STREAM_JPEG_QUALITY ∧
    (recomputeSettings tunnelConfigExample).max_width = STREAM_MAX_WIDTH ∧
    (getCurrentSettings {} tunnelConfigExample 100).1
        = some (recomputeSettings tunnelConfigExample) ∧
    computeIsTunnelMode
        { tunnelConfigExample with stream_optimize_for_tunnel := some true }
        = true := by
  refine ⟨rfl, rfl, rfl, rfl, rfl, ?_, rfl⟩
  rw [getCurrentSettings, if_pos (by norm_num [CONFIG_CHECK_INTERVAL])]

/-- C8: evaluation of the embedded `get_camera_state` at the failing input.
On an absent camera id (or on `reset = true`) the code constructs
`CameraState()`, whose pydantic validation fails because `nickname` and
`source` are required fields with no default, so the call raises instead of
returning a default record; a stored record is returned unchanged. -/
theorem get_camera_state_raises_on_absent_id :
    get_camera_state [] "cam-1" false
        = .error "ValidationError: nickname is a required field" ∧
    get_camera_state [("cam-1", defaultCameraState "nick" "0")] "cam-1" true
        = .error "ValidationError: nickname is a required field" ∧
    get_camera_state [("cam-1", defaultCameraState "nick" "0")] "cam-1" false
        = .ok (defaultCameraState "nick" "0",
               [("cam-1", defaultCameraState "nick" "0")]) := by
  refine ⟨rfl, rfl, ?_⟩
  rw [get_camera_state]
  norm_num [lookupState, List.find?]

/-- Helper: once the capture loop has exited, further read outcomes change
nothing. -/
theorem runCapture_of_loop_exited (s : StreamState) (events : List ReadEvent)
    (h : s.loop_active = false) : runCapture s events = s := by
  induction events with
  | nil => rfl
  | cons e rest ih =>
    have hstep : captureStep s e = s := by
      unfold captureStep
      rw [if_pos h]
    simp only [runCapture, List.foldl_cons, hstep]
    exact ih

/-- Helper: ten consecutive failed reads, starting from a live loop with a
clean failure counter, leave every field unchanged except the counter (now 10)
and the loop flag (now exited).  In particular `is_running` is not cleared. -/
theorem runCapture_ten_failures (s : StreamState)
    (hloop : s.loop_active = true) (hrun : s.is_running = true)
    (hcf : s.consecutive_failures = 0) :
    runCapture s (List.replicate 10 .failure)
      = { s with consecutive_failures := 10, loop_active := false } := by
  obtain ⟨lf, ir, lft, fc, cf, la⟩ := s
  simp only at hloop hrun hcf
  subst hloop; subst hrun; subst hcf
  show runCapture _ (List.replicate 10 .failure) = _
  norm_num [runCapture, captureStep, List.replicate, MAX_CONSECUTIVE_FAILURES]

/-- C5, counterexample: after a successful frame at time 0 followed by ten
consecutive failed reads, the capture loop has exited but `is_running` is
still `true` (the claim requires it to become `false`), and at time 1 the
stream is still reported healthy (the claim requires it to be reported
unhealthy thereafter). -/
theorem stream_running_after_ten_failures :
    (runCapture startedStream tenFailures).is_running = true ∧
    (runCapture startedStream tenFailures).loop_active = false ∧
    isHealthy (runCapture startedStream tenFailures) 1 = true := by decide

/-- C5 (amended): from a live capture loop with a clean failure counter, ten
consecutive failed reads make the capture loop exit and ignore all further
read outcomes, while the running flag stays `true` and the frame slot is
frozen; the stream is reported unhealthy only once 5 seconds have passed
since the last captured frame; a successful read resets the
consecutive-failure counter. -/
theorem capture_failure_threshold (s : StreamState)
    (hloop : s.loop_active = true) (hrun : s.is_running = true)
    (hcf : s.consecutive_failures = 0) :
    (runCapture s (List.replicate 10 .failure)).loop_active = false ∧
    (runCapture s (List.replicate 10 .failure)).is_running = true ∧
    (runCapture s (List.replicate 10 .failure)).latest_frame = s.latest_frame ∧
    (∀ events, runCapture (runCapture s (List.replicate 10 .failure)) events
        = runCapture s (List.replicate 10 .failure)) ∧
    (∀ now, 5 ≤ now - (runCapture s (List.replicate 10 .failure)).last_frame_time →
        isHealthy (runCapture s (List.replicate 10 .failure)) now = false) ∧
    (∀ frame t, (captureStep s (.success frame t)).consecutive_failures = 0) := by
  rw [runCapture_ten_failures s hloop hrun hcf]
  refine ⟨rfl, hrun, rfl, ?_, ?_, ?_⟩
  · intro events
    exact runCapture_of_loop_exited _ events rfl
  · intro now hnow
    unfold isHealthy
    dsimp only at hnow ⊢
    simp only [Bool.and_eq_false_imp, decide_eq_false_iff_not]
    intro _
    omega
  · intro frame t
    unfold captureStep
    rw [if_neg (by simp [hloop]), if_neg (by simp [hrun])]

/-- Witness for C5: instantiates the amended theorem at the started stream
and extracts the loop-exited conclusion. -/
theorem capture_failure_threshold_witness :
    (runCapture startedStream (List.replicate 10 .failure)).loop_active = false :=
  (capture_failure_threshold startedStream rfl rfl rfl).1

/-- Helper: a `put` moves exactly its own payload into the system: the
delivered payloads followed by the buffered ones grow by exactly `[pkt]`. -/
theorem queuePut_conserves (b : ChannelRun) (pkt : String) :
    (queuePut b pkt).delivered.map Prod.snd ++ (queuePut b pkt).queue.items
      = (b.delivered.map Prod.snd ++ b.queue.items) ++ [pkt] := by
  unfold queuePut
  cases hg : b.queue.getters with
  | nil =>
    cases hi : b.queue.items ++ [pkt] with
    | nil => simp at hi
    | cons x irest =>
      simp only [List.append_assoc]
      rw [hi]
  | cons c grest =>
    cases hi : b.queue.items ++ [pkt] with
    | nil => simp at hi
    | cons x irest =>
      simp only [List.map_append, List.map_cons, List.map_nil,
        List.singleton_append, List.append_assoc]
      rw [hi]

/-- Helper: a `get` never loses or duplicates a payload: the delivered
payloads followed by the buffered ones are unchanged. -/
theorem queueGet_conserves (b : ChannelRun) (c : Nat) :
    (queueGet b c).delivered.map Prod.snd ++ (queueGet b c).queue.items
      = b.delivered.map Prod.snd ++ b.queue.items := by
  unfold queueGet
  cases hi : b.queue.items with
  | nil => simpa using hi.symm
  | cons x irest => simp

/-- Helper: over any run, the delivered payloads followed by the buffered
ones are exactly the enqueued payloads, in enqueue order. -/
theorem runChannel_conservation (ops : List ChannelOp) (b : ChannelRun) :
    (runChannel b ops).delivered.map Prod.snd ++ (runChannel b ops).queue.items
      = (b.delivered.map Prod.snd ++ b.queue.items) ++ putsOf ops := by
  induction ops generalizing b with
  | nil => simp [runChannel, putsOf]
  | cons op rest ih =>
    have h1 : runChannel b (op :: rest) = runChannel (channelStep b op) rest := rfl
    rw [h1, ih]
    cases op with
    | put pkt =>
      have h2 : putsOf (.put pkt :: rest) = pkt :: putsOf rest := by
        unfold putsOf
        simp
      have h3 : channelStep b (.put pkt) = queuePut b pkt := rfl
      rw [h2, h3, queuePut_conserves]
      simp
    | get c =>
      have h2 : putsOf (.get c :: rest) = putsOf rest := by
        unfold putsOf
        simp
      have h3 : channelStep b (.get c) = queueGet b c := rfl
      rw [h2, h3, queueGet_conserves]

/-- C9, counterexample: with clients 1 and 2 both subscribed (each blocked in
`queue.get()` of the shared outbound queue), one enqueued event is delivered
only to client 1; client 2 never receives it, refuting delivery of every
event to every currently-subscribed listener. -/
theorem enqueued_event_not_broadcast :
    (runChannel {} [.get 1, .get 2]).queue.getters = [1, 2] ∧
    (runChannel {} [.get 1, .get 2, .put "e1"]).delivered = [(1, "e1")] ∧
    (2, "e1") ∉ (runChannel {} [.get 1, .get 2, .put "e1"]).delivered := by
  decide

/-- C9 (amended): each enqueued event is delivered to exactly one listener,
the longest-waiting getter, so delivery depends only on the clients currently
pulling (a disconnected client no longer calls `get` and does not affect
delivery to the rest); with no waiting getter the event is buffered for the
next `get`; over any run from startup the delivered payloads followed by the
still-buffered ones are exactly the enqueued payloads in enqueue order — no
event is lost, duplicated or reordered. -/
theorem event_channel_delivery (b : ChannelRun) (pkt : String) (c : Nat)
    (grest : List Nat) (ops : List ChannelOp) :
    (b.queue.items = [] → b.queue.getters = c :: grest →
      (queuePut b pkt).delivered = b.delivered ++ [(c, pkt)] ∧
      (queuePut b pkt).queue.getters = grest ∧
      (queuePut b pkt).queue.items = []) ∧
    (b.queue.getters = [] →
      (queuePut b pkt).delivered = b.delivered ∧
      (queuePut b pkt).queue.items = b.queue.items ++ [pkt]) ∧
    ((runChannel {} ops).delivered.map Prod.snd
        ++ (runChannel {} ops).queue.items = putsOf ops) := by
  refine ⟨?_, ?_, ?_⟩
  · intro hi hg
    unfold queuePut
    rw [hg, hi]
    exact ⟨rfl, rfl, rfl⟩
  · intro hg
    unfold queuePut
    rw [hg]
    exact ⟨rfl, rfl⟩
  · simpa using runChannel_conservation ops {}

/-- Witness for C9: with clients 1 and 2 waiting, a put delivers its packet
to client 1 alone. -/
theorem event_channel_delivery_witness :
    (queuePut (runChannel {} [.get 1, .get 2]) "e2").delivered
      = (runChannel {} [.get 1, .get 2]).delivered ++ [(1, "e2")] :=
  ((event_channel_delivery (runChannel {} [.get 1, .get 2]) "e2" 1 [2] []).1
    (by decide) (by decide)).1

/-- Helper: a key resolving to a field bears the canonical name of that
field. -/
theorem fieldName_of_fieldOfName (s : String) (f : CameraField)
    (h : fieldOfName s = some f) : s = fieldName f := by
  unfold fieldOfName at h
  obtain ⟨a, ha, ha2⟩ := Option.map_eq_some'.mp h
  have hp : a.1 = s := by simpa using List.find?_some ha
  have hmem : a ∈ fieldPairs := List.mem_of_find?_eq_some ha
  have hall : ∀ p ∈ fieldPairs, fieldName p.2 = p.1 := by decide
  rw [← hp, ← ha2]
  exact (hall a hmem).symm

/-- Helper: a key classified as a declared field resolves to that field in
the declared-field table. -/
theorem fieldOfName_of_attrKind_declared (key : String) (g : CameraField)
    (h : attrKind key = AttrKind.declared g) : fieldOfName key = some g := by
  unfold attrKind at h
  cases hf : fieldOfName key with
  | some f =>
    rw [hf] at h
    dsimp only at h
    injection h with h2
    rw [h2]
  | none =>
    rw [hf] at h
    dsimp only at h
    split at h
    · simp at h
    · split at h
      · simp at h
      · simp at h

/-- Helper: when every key of the update map either names a declared field
or names no attribute at all, the merge loop succeeds, leaves every field
untouched whose name is not a key of the map, and changes nothing when
every key names no attribute. -/
theorem merge_ok_frame (new_states : List (String × PyValue))
    (obj : CameraStateObj) (f : CameraField)
    (hkeys : ∀ kv ∈ new_states, attrKind kv.1 ≠ AttrKind.nonFieldAttr ∧
      attrKind kv.1 ≠ AttrKind.dunderAttr) :
    ∃ merged, update_camera_state_merge obj new_states = Except.ok merged ∧
      ((∀ kv ∈ new_states, kv.1 ≠ fieldName f) → merged f = obj f) ∧
      ((∀ kv ∈ new_states, attrKind kv.1 = AttrKind.absent) →
        ∀ g, merged g = obj g) := by
  induction new_states generalizing obj with
  | nil => exact ⟨obj, rfl, fun _ => rfl, fun _ g => rfl⟩
  | cons kv rest ih =>
    have hrest : ∀ kv2 ∈ rest, attrKind kv2.1 ≠ AttrKind.nonFieldAttr ∧
        attrKind kv2.1 ≠ AttrKind.dunderAttr :=
      fun kv2 hm => hkeys kv2 (List.mem_cons_of_mem kv hm)
    have hk := hkeys kv (List.mem_cons_self kv rest)
    cases hak : attrKind kv.1 with
    | nonFieldAttr => exact absurd hak hk.1
    | dunderAttr => exact absurd hak hk.2
    | declared g =>
      obtain ⟨merged, hok, hf1, _⟩ := ih (setattrField obj g kv.2) hrest
      refine ⟨merged, ?_, ?_, ?_⟩
      · show update_camera_state_merge obj (kv :: rest) = Except.ok merged
        unfold update_camera_state_merge
        rw [hak]
        exact hok
      · intro hne
        have hgf : g ≠ f := by
          intro heq
          have hres := fieldOfName_of_attrKind_declared kv.1 g hak
          have hkey : kv.1 = fieldName g := fieldName_of_fieldOfName kv.1 g hres
          exact hne kv (List.mem_cons_self kv rest) (by rw [hkey, heq])
        have hfg : ¬ (f = g) := fun hh => hgf hh.symm
        rw [hf1 (fun kv2 hm => hne kv2 (List.mem_cons_of_mem kv hm))]
        show (if f = g then kv.2 else obj f) = obj f
        rw [if_neg hfg]
      · intro hall
        have h1 := hall kv (List.mem_cons_self kv rest)
        rw [hak] at h1
        simp at h1
    | absent =>
      obtain ⟨merged, hok, hf1, hf2⟩ := ih obj hrest
      refine ⟨merged, ?_, ?_, ?_⟩
      · show update_camera_state_merge obj (kv :: rest) = Except.ok merged
        unfold update_camera_state_merge
        rw [hak]
        exact hok
      · intro hne
        exact hf1 (fun kv2 hm => hne kv2 (List.mem_cons_of_mem kv hm))
      · intro hall
        exact hf2 (fun kv2 hm => hall kv2 (List.mem_cons_of_mem kv hm))

/-- Helper: replacing the entry of key `k` in a string-keyed map is seen by a
lookup of `k`. -/
theorem find?_map_set_self {A : Type} (m : List (String × A)) (k : String)
    (x : A) (a : String × A)
    (hfind : m.find? (fun p => p.1 = k) = some a) :
    (m.map (fun q => if q.1 = k then (k, x) else q)).find? (fun p => p.1 = k)
      = some (k, x) := by
  induction m with
  | nil => simp at hfind
  | cons q rest ih =>
    by_cases hq : q.1 = k
    · simp [List.find?_cons, hq]
    · have hrest : rest.find? (fun p => p.1 = k) = some a := by
        simpa [List.find?_cons, hq] using hfind
      simpa [List.find?_cons, hq] using ih hrest

/-- Helper: replacing the entry of key `k` is invisible to lookups of other
keys. -/
theorem find?_map_set_ne {A : Type} (m : List (String × A)) (k u : String)
    (x : A) (hne : u ≠ k) :
    (m.map (fun q => if q.1 = k then (k, x) else q)).find? (fun p => p.1 = u)
      = m.find? (fun p => p.1 = u) := by
  induction m with
  | nil => rfl
  | cons q rest ih =>
    simp only [List.map_cons]
    by_cases hq : q.1 = k
    · have hku : ¬ (k = u) := fun hh => hne hh.symm
      have hqu : ¬ (q.1 = u) := by rw [hq]; exact hku
      rw [if_pos hq]
      simp only [List.find?, hku, hqu, decide_False]
      exact ih
    · rw [if_neg hq]
      by_cases hqu : q.1 = u
      · simp only [List.find?, hqu, decide_True]
      · simp only [List.find?, hqu, decide_False]
        exact ih

/-- C10, counterexample: the key `model_dump` names no declared field, yet
it names an attribute of every pydantic model (the serialisation method), so
the `hasattr` guard passes and the pydantic-v2 `setattr` raises `ValueError:
"CameraState" object has no field "model_dump"`; the merge aborts with that
error instead of ignoring the key, refuting the unrestricted claim. -/
theorem update_raises_on_non_field_attribute :
    attrKind "model_dump" = AttrKind.nonFieldAttr ∧
    fieldOfName "model_dump" = none ∧
    update_camera_state_merge (fun _ => PyValue.pynone)
        [("model_dump", PyValue.pynone)]
      = Except.error (setattrValueError "model_dump") ∧
    updateCameraStateObj [("c", fun _ => PyValue.pynone)] "c"
        [("model_dump", PyValue.pynone)]
      = some (Except.error (setattrValueError "model_dump")) :=
  ⟨by decide, by decide, rfl, rfl⟩

/-- C10 (amended): on an existing record, for an update map whose keys each
either name a declared field or name no attribute of the pydantic object at
all, the update succeeds, leaves every field whose name is not a key of the
map at its previous value, treats keys naming no attribute as no-ops, and
mutates the stored record in place: the map keeps one entry for the id, now
holding the merged record, the same record is returned, and every other id
still maps to its previous record.  A key naming a non-field attribute of
the object (such as `model_dump`) instead passes the `hasattr` guard and
makes `setattr` raise `ValueError`, aborting the update. -/
theorem update_camera_state_frame (states : List (String × CameraStateObj))
    (camera_uuid : String) (new_states : List (String × PyValue))
    (rec0 : CameraStateObj) (f : CameraField)
    (hfind : states.find? (fun p => p.1 = camera_uuid) = some (camera_uuid, rec0))
    (hkeys : ∀ kv ∈ new_states, attrKind kv.1 ≠ AttrKind.nonFieldAttr ∧
      attrKind kv.1 ≠ AttrKind.dunderAttr) :
    ∃ merged states2,
      update_camera_state_merge rec0 new_states = Except.ok merged ∧
      ((∀ kv ∈ new_states, kv.1 ≠ fieldName f) → merged f = rec0 f) ∧
      ((∀ kv ∈ new_states, attrKind kv.1 = AttrKind.absent) →
        ∀ g, merged g = rec0 g) ∧
      updateCameraStateObj states camera_uuid new_states
        = some (Except.ok (merged, states2)) ∧
      lookupObj states2 camera_uuid = some merged ∧
      ∀ u, u ≠ camera_uuid → lookupObj states2 u = lookupObj states u := by
  obtain ⟨merged, hok, hf1, hf2⟩ := merge_ok_frame new_states rec0 f hkeys
  refine ⟨merged, states.map (fun q =>
    if q.1 = camera_uuid then (camera_uuid, merged) else q),
    hok, hf1, hf2, ?_, ?_, ?_⟩
  · unfold updateCameraStateObj
    rw [hfind]
    dsimp only
    rw [hok]
  · unfold lookupObj
    rw [find?_map_set_self states camera_uuid _ _ hfind]
    rfl
  · intro u hu
    unfold lookupObj
    rw [find?_map_set_ne states camera_uuid u _ hu]

/-- Witness for C10: a one-record store updated with `{"last_result": "ok",
"bogus_key": 1}` merges successfully, keeping the `nickname` field. -/
theorem update_camera_state_frame_witness :
    ∃ merged, update_camera_state_merge (fun _ => PyValue.pynone)
        [("last_result", PyValue.str "ok"), ("bogus_key", PyValue.num 1)]
      = Except.ok merged ∧ merged CameraField.nickname = PyValue.pynone := by
  obtain ⟨merged, states2, hok, hf1, _, _, _, _⟩ :=
    update_camera_state_frame [("c", fun _ => PyValue.pynone)] "c"
      [("last_result", PyValue.str "ok"), ("bogus_key", PyValue.num 1)]
      (fun _ => PyValue.pynone) CameraField.nickname rfl (by decide)
  exact ⟨merged, hok, hf1 (by decide)⟩


theorem find?_map_modify_self {A : Type} (m : List (String × A)) (k : String)
    (f : A → A) :
    (m.map (fun q => if q.1 = k then (k, f q.2) else q)).find? (fun p => p.1 = k)
      = (m.find? (fun p => p.1 = k)).map (fun q => (k, f q.2)) := by
  induction m with
  | nil => rfl
  | cons q rest ih =>
    simp only [List.map_cons]
    by_cases hq : q.1 = k
    · rw [if_pos hq]
      simp only [List.find?, hq, decide_True]
      rfl
    · rw [if_neg hq]
      simp only [List.find?, hq, decide_False]
      exact ih

theorem find?_map_modify_ne {A : Type} (m : List (String × A)) (k u : String)
    (f : A → A) (hne : u ≠ k) :
    (m.map (fun q => if q.1 = k then (k, f q.2) else q)).find? (fun p => p.1 = u)
      = m.find? (fun p => p.1 = u) := by
  induction m with
  | nil => rfl
  | cons q rest ih =>
    simp only [List.map_cons]
    by_cases hq : q.1 = k
    · have hku : ¬ (k = u) := fun hh => hne hh.symm
      have hqu : ¬ (q.1 = u) := by rw [hq]; exact hku
      rw [if_pos hq]
      simp only [List.find?, hku, hqu, decide_False]
      exact ih
    · rw [if_neg hq]
      by_cases hqu : q.1 = u
      · simp only [List.find?, hqu, decide_True]
      · simp only [List.find?, hqu, decide_False]
        exact ih

theorem lookupCamera_modify_self (s : SysState) (u : String)
    (f : CameraState → CameraState) :
    lookupCamera (modifyCamera s u f) u = (lookupCamera s u).map f := by
  unfold lookupCamera modifyCamera
  rw [find?_map_modify_self]
  cases s.cameras.find? (fun p => p.1 = u) <;> rfl

theorem lookupCamera_modify_ne (s : SysState) (u v : String)
    (f : CameraState → CameraState) (hne : v ≠ u) :
    lookupCamera (modifyCamera s u f) v = lookupCamera s v := by
  unfold lookupCamera modifyCamera
  rw [find?_map_modify_ne _ _ _ _ hne]

theorem countP_split {A : Type} (l : List A) (p q : A → Bool) :
    l.countP p
      = l.countP (fun a => p a && q a) + l.countP (fun a => p a && !q a) := by
  induction l with
  | nil => rfl
  | cons a rest ih =>
    rw [List.countP_cons, List.countP_cons, List.countP_cons, ih]
    cases hp : p a <;> cases hq : q a <;> simp <;> omega

theorem filter_erase_length (l : List (String × String))
    (e : String × String) (p : (String × String) → Bool) (hmem : e ∈ l) :
    ((l.erase e).filter p).length
      = (l.filter p).length - (if p e then 1 else 0) := by
  induction l with
  | nil => simp at hmem
  | cons x rest ih =>
    rw [List.erase_cons]
    by_cases hx : x = e
    · subst hx
      rw [if_pos (by simp)]
      rw [List.filter_cons]
      cases hp : p x <;> simp [hp]
    · rw [if_neg (by simp [hx])]
      have hmem2 : e ∈ rest := by
        rcases List.mem_cons.mp hmem with h | h
        · exact absurd h.symm hx
        · exact h
      rw [List.filter_cons, List.filter_cons]
      cases hp : p x
      · simp only [Bool.false_eq_true, if_false]
        exact ih hmem2
      · simp only [if_true, List.length_cons]
        rw [ih hmem2]
        have hle : (if p e then 1 else 0) ≤ (rest.filter p).length := by
          by_cases hpe : p e
          · have hmf : e ∈ rest.filter p := List.mem_filter.mpr ⟨hmem2, hpe⟩
            have := List.length_pos.mpr (List.ne_nil_of_mem hmf)
            simpa [hpe] using this
          · simp [hpe]
        omega

theorem aliveFor_eq_countP (s : SysState) (u : String) :
    aliveFor s u = s.alerts.countP (fun a => a.camera_uuid = u) :=
  (List.countP_eq_length_filter _ _).symm

theorem pendingFor_eq_countP (s : SysState) (u : String) :
    pendingFor s u = s.pending_creates.countP (fun p => p.1 = u) :=
  (List.countP_eq_length_filter _ _).symm

theorem filter_append_single_length {A : Type} (l : List A) (e : A)
    (p : A → Bool) :
    ((l ++ [e]).filter p).length = (l.filter p).length + (if p e then 1 else 0) := by
  rw [List.filter_append]
  cases hp : p e <;> simp [List.filter_cons, hp]

theorem find?_append_of_some {A : Type} (l l2 : List A) (p : A → Bool) (a : A)
    (h : l.find? p = some a) : (l ++ l2).find? p = some a := by
  induction l with
  | nil => simp at h
  | cons x rest ih =>
    cases hp : p x with
    | true =>
      rw [List.find?_cons_of_pos _ hp] at h
      rw [List.cons_append, List.find?_cons_of_pos _ hp]
      exact h
    | false =>
      rw [List.find?_cons_of_neg _ (by simp [hp])] at h
      rw [List.cons_append, List.find?_cons_of_neg _ (by simp [hp])]
      exact ih h

theorem find?_append_of_none {A : Type} (l l2 : List A) (p : A → Bool)
    (h : l.find? p = none) : (l ++ l2).find? p = l2.find? p := by
  induction l with
  | nil => rfl
  | cons x rest ih =>
    cases hp : p x with
    | true =>
      rw [List.find?_cons_of_pos _ hp] at h
      simp at h
    | false =>
      rw [List.find?_cons_of_neg _ (by simp [hp])] at h
      rw [List.cons_append, List.find?_cons_of_neg _ (by simp [hp])]
      exact ih h

theorem aliveFor_modifyCamera (s : SysState) (u : String)
    (f : CameraState → CameraState) (v : String) :
    aliveFor (modifyCamera s u f) v = aliveFor s v := rfl

theorem aliveFor_addPending (s : SysState) (e : String × String) (v : String) :
    aliveFor (addPending s e) v = aliveFor s v := rfl

theorem aliveFor_removePending (s : SysState) (e : String × String)
    (v : String) : aliveFor (removePending s e) v = aliveFor s v := rfl

theorem aliveFor_logSuspend (s : SysState) (u : String) (act : AlertAction)
    (v : String) : aliveFor (logSuspend s u act) v = aliveFor s v := rfl

theorem pendingFor_modifyCamera (s : SysState) (u : String)
    (f : CameraState → CameraState) (v : String) :
    pendingFor (modifyCamera s u f) v = pendingFor s v := rfl

theorem pendingFor_addAlertRecord (s : SysState) (a : Alert) (v : String) :
    pendingFor (addAlertRecord s a) v = pendingFor s v := rfl

theorem pendingFor_removeAlertRecords (s : SysState)
    (alert_id : String × String) (v : String) :
    pendingFor (removeAlertRecords s alert_id) v = pendingFor s v := rfl

theorem pendingFor_logSuspend (s : SysState) (u : String) (act : AlertAction)
    (v : String) : pendingFor (logSuspend s u act) v = pendingFor s v := rfl

theorem lookupCamera_addPending (s : SysState) (e : String × String)
    (v : String) : lookupCamera (addPending s e) v = lookupCamera s v := rfl

theorem lookupCamera_removePending (s : SysState) (e : String × String)
    (v : String) : lookupCamera (removePending s e) v = lookupCamera s v := rfl

theorem lookupCamera_addAlertRecord (s : SysState) (a : Alert) (v : String) :
    lookupCamera (addAlertRecord s a) v = lookupCamera s v := rfl

theorem lookupCamera_removeAlertRecords (s : SysState)
    (alert_id : String × String) (v : String) :
    lookupCamera (removeAlertRecords s alert_id) v = lookupCamera s v := rfl

theorem lookupCamera_logSuspend (s : SysState) (u : String)
    (act : AlertAction) (v : String) :
    lookupCamera (logSuspend s u act) v = lookupCamera s v := rfl

theorem getAlert_logSuspend (s : SysState) (u : String) (act : AlertAction)
    (alert_id : String × String) :
    getAlert (logSuspend s u act) alert_id = getAlert s alert_id := rfl

theorem aliveFor_addAlertRecord (s : SysState) (a : Alert) (v : String) :
    aliveFor (addAlertRecord s a) v
      = aliveFor s v + (if a.camera_uuid = v then 1 else 0) := by
  unfold aliveFor addAlertRecord
  rw [filter_append_single_length]
  by_cases hv : a.camera_uuid = v <;> simp [hv]

theorem pendingFor_addPending (s : SysState) (e : String × String)
    (v : String) :
    pendingFor (addPending s e) v
      = pendingFor s v + (if e.1 = v then 1 else 0) := by
  unfold pendingFor addPending
  rw [filter_append_single_length]
  by_cases hv : e.1 = v <;> simp [hv]

theorem pendingFor_removePending (s : SysState) (e : String × String)
    (v : String) (hmem : e ∈ s.pending_creates) :
    pendingFor (removePending s e) v
      = pendingFor s v - (if e.1 = v then 1 else 0) := by
  unfold pendingFor removePending
  dsimp only
  rw [filter_erase_length _ _ _ hmem]
  by_cases hv : e.1 = v <;> simp [hv]

theorem currentSlot_modify_self (s : SysState) (u : String)
    (f : CameraState → CameraState) :
    currentSlot (modifyCamera s u f) u
      = (lookupCamera s u).map (fun c => (f c).current_alert_id) := by
  unfold currentSlot
  rw [lookupCamera_modify_self]
  cases lookupCamera s u <;> rfl

theorem getAlert_dismiss_self (s : SysState) (alert_id : String × String) :
    getAlert (dismiss_alert s alert_id).2 alert_id = none := by
  unfold dismiss_alert
  cases hany : s.alerts.any (fun a => a.id = alert_id) with
  | false =>
    rw [if_neg (by simp [hany])]
    unfold getAlert
    rw [List.find?_eq_none]
    intro a ha
    exact (List.any_eq_false.mp hany) a ha
  | true =>
    rw [if_pos (by simp [hany])]
    unfold getAlert modifyCamera removeAlertRecords
    dsimp only
    rw [List.find?_eq_none]
    intro a ha
    have h2 := List.mem_filter.mp ha
    simpa using h2.2

theorem dismiss_not_found (s : SysState) (alert_id : String × String)
    (h : getAlert s alert_id = none) :
    dismiss_alert s alert_id = (false, s) := by
  unfold dismiss_alert
  have hany : s.alerts.any (fun a => a.id = alert_id) = false := by
    rw [List.any_eq_false]
    intro a ha
    exact List.find?_eq_none.mp h a ha
  rw [if_neg (by simp [hany])]

theorem dismiss_dismiss (s : SysState) (alert_id : String × String) :
    dismiss_alert (dismiss_alert s alert_id).2 alert_id
      = (false, (dismiss_alert s alert_id).2) :=
  dismiss_not_found _ _ (getAlert_dismiss_self s alert_id)

theorem dismiss_found_parts (s : SysState) (alert_id : String × String)
    (a : Alert) (hget : getAlert s alert_id = some a) :
    (dismiss_alert s alert_id).1 = true ∧
    (dismiss_alert s alert_id).2.suspend_calls = s.suspend_calls ∧
    (∀ c, lookupCamera s alert_id.1 = some c →
      currentSlot (dismiss_alert s alert_id).2 alert_id.1 = some .empty) := by
  have hmem := List.mem_of_find?_eq_some hget
  have hpred : a.id = alert_id := by simpa using List.find?_some hget
  have hany : s.alerts.any (fun x => x.id = alert_id) = true := by
    rw [List.any_eq_true]
    exact ⟨a, hmem, by simpa using hpred⟩
  unfold dismiss_alert
  rw [if_pos (by simp [hany])]
  refine ⟨rfl, rfl, ?_⟩
  intro c hc
  rw [currentSlot_modify_self, lookupCamera_removeAlertRecords, hc]
  rfl

theorem terminate_noop_of_absent (s : SysState) (alert_id : String × String)
    (h : getAlert s alert_id = none) :
    terminate_alert_after_cooldown s alert_id = s := by
  unfold terminate_alert_after_cooldown
  rw [h]

theorem terminate_dismiss_action (s : SysState) (alert_id : String × String)
    (alert : Alert) (c : CameraState)
    (hget : getAlert s alert_id = some alert)
    (hcam : lookupCamera s alert.camera_uuid = some c)
    (hact : c.countdown_action = .dismiss) :
    terminate_alert_after_cooldown s alert_id = (dismiss_alert s alert_id).2 := by
  unfold terminate_alert_after_cooldown
  rw [hget]
  dsimp only
  rw [hcam]
  dsimp only
  rw [hact]

theorem terminate_suspend_action (s : SysState) (alert_id : String × String)
    (alert : Alert) (c : CameraState)
    (hget : getAlert s alert_id = some alert)
    (hcam : lookupCamera s alert.camera_uuid = some c)
    (hact : c.countdown_action = .cancel_print ∨ c.countdown_action = .pause_print) :
    terminate_alert_after_cooldown s alert_id
      = (dismiss_alert (logSuspend s alert.camera_uuid c.countdown_action)
          alert_id).2 := by
  unfold terminate_alert_after_cooldown
  rcases hact with hact | hact <;>
    · rw [hget]
      dsimp only
      rw [hcam]
      dsimp only
      rw [hact]

theorem aliveFor_removeAlertRecords (s : SysState)
    (alert_id : String × String) (v : String) :
    aliveFor (removeAlertRecords s alert_id) v
      = s.alerts.countP
          (fun a => decide (a.camera_uuid = v) && !decide (a.id = alert_id)) := by
  unfold aliveFor removeAlertRecords
  dsimp only
  rw [← List.countP_eq_length_filter, List.countP_filter]
  apply List.countP_congr
  intro a _
  simp [decide_not]

theorem inv_logSuspend (s : SysState) (u : String) (act : AlertAction)
    (h : AlertInv s) : AlertInv (logSuspend s u act) := h

theorem inv_claim (s : SysState) (u sfx : String) (h : AlertInv s) :
    AlertInv (claim_alert_slot s u sfx) := by
  unfold claim_alert_slot
  cases hlook : lookupCamera s u with
  | none => exact h
  | some ref =>
    dsimp only
    by_cases hcond : ref.current_alert_id = .empty ∧ passedMajorityVote ref
    · rw [if_pos hcond]
      obtain ⟨hWF, hcl⟩ := h
      have hzero := (hcl u).2.1 ref hlook hcond.1
      refine ⟨hWF, ?_⟩
      intro v
      obtain ⟨h1, h2, h3⟩ := hcl v
      refine ⟨?_, ?_, ?_⟩
      · rw [aliveFor_addPending, aliveFor_modifyCamera,
          pendingFor_addPending, pendingFor_modifyCamera]
        dsimp only
        by_cases hv : u = v
        · subst hv
          rw [if_pos rfl]
          omega
        · rw [if_neg hv]
          omega
      · intro c hc hslot
        rw [lookupCamera_addPending] at hc
        rw [aliveFor_addPending, aliveFor_modifyCamera,
          pendingFor_addPending, pendingFor_modifyCamera]
        dsimp only
        by_cases hv : v = u
        · subst hv
          rw [lookupCamera_modify_self, hlook] at hc
          have hce : claimSlot ref = c := Option.some_injective _ hc
          rw [← hce] at hslot
          simp [claimSlot] at hslot
        · rw [lookupCamera_modify_ne s u v _ hv] at hc
          rw [if_neg (fun hh => hv hh.symm)]
          have := h2 c hc hslot
          omega
      · intro hnone
        rw [lookupCamera_addPending] at hnone
        rw [aliveFor_addPending, aliveFor_modifyCamera,
          pendingFor_addPending, pendingFor_modifyCamera]
        dsimp only
        by_cases hv : v = u
        · subst hv
          rw [lookupCamera_modify_self, hlook] at hnone
          simp at hnone
        · rw [lookupCamera_modify_ne s u v _ hv] at hnone
          rw [if_neg (fun hh => hv hh.symm)]
          have := h3 hnone
          omega
    · rw [if_neg hcond]
      exact h

theorem inv_create (s : SysState) (u sfx : String) (t : Int) (h : AlertInv s) :
    AlertInv (create_alert_and_notify s u sfx t) := by
  unfold create_alert_and_notify
  by_cases hmem : (u, sfx) ∈ s.pending_creates
  · rw [if_pos hmem]
    cases hlook : lookupCamera s u with
    | none => exact h
    | some ref =>
      dsimp only
      obtain ⟨hWF, hcl⟩ := h
      have hpendu : 1 ≤ pendingFor s u := by
        rw [pendingFor_eq_countP]
        have hpos : 0 < List.countP (fun p => decide (p.1 = u)) s.pending_creates :=
          List.countP_pos_iff.mpr ⟨(u, sfx), hmem, by simp⟩
        omega
      have hmem2 : (u, sfx) ∈ (modifyCamera s u (writeSlot (u, sfx))).pending_creates := hmem
      refine ⟨?_, ?_⟩
      · intro a ha
        rcases List.mem_append.mp ha with hmem3 | hmem3
        · exact hWF a hmem3
        · rw [List.mem_singleton] at hmem3
          subst hmem3
          rfl
      · intro v
        obtain ⟨h1, h2, h3⟩ := hcl v
        have hzero := (hcl u).1
        refine ⟨?_, ?_, ?_⟩
        · rw [aliveFor_addAlertRecord, aliveFor_removePending,
            aliveFor_modifyCamera, pendingFor_addAlertRecord,
            pendingFor_removePending _ _ _ hmem2, pendingFor_modifyCamera]
          dsimp only [mkAlert]
          by_cases hv : u = v
          · subst hv
            rw [if_pos rfl]
            omega
          · rw [if_neg hv]
            omega
        · intro c hc hslot
          rw [lookupCamera_addAlertRecord, lookupCamera_removePending] at hc
          by_cases hv : v = u
          · subst hv
            rw [lookupCamera_modify_self, hlook] at hc
            have hce : writeSlot (v, sfx) ref = c := Option.some_injective _ hc
            rw [← hce] at hslot
            simp [writeSlot] at hslot
          · rw [lookupCamera_modify_ne s u v _ hv] at hc
            have hs := h2 c hc hslot
            rw [aliveFor_addAlertRecord, aliveFor_removePending,
              aliveFor_modifyCamera, pendingFor_addAlertRecord,
              pendingFor_removePending _ _ _ hmem2, pendingFor_modifyCamera]
            dsimp only [mkAlert]
            have huv : ¬ (u = v) := fun hh => hv hh.symm
            rw [if_neg huv]
            omega
        · intro hnone
          rw [lookupCamera_addAlertRecord, lookupCamera_removePending] at hnone
          by_cases hv : v = u
          · subst hv
            rw [lookupCamera_modify_self, hlook] at hnone
            simp at hnone
          · rw [lookupCamera_modify_ne s u v _ hv] at hnone
            have hs := h3 hnone
            rw [aliveFor_addAlertRecord, aliveFor_removePending,
              aliveFor_modifyCamera, pendingFor_addAlertRecord,
              pendingFor_removePending _ _ _ hmem2, pendingFor_modifyCamera]
            dsimp only [mkAlert]
            have huv : ¬ (u = v) := fun hh => hv hh.symm
            rw [if_neg huv]
            omega
  · rw [if_neg hmem]
    exact h

theorem inv_dismiss (s : SysState) (alert_id : String × String)
    (h : AlertInv s) : AlertInv (dismiss_alert s alert_id).2 := by
  obtain ⟨hWF, hcl⟩ := h
  unfold dismiss_alert
  cases hany : s.alerts.any (fun a => a.id = alert_id) with
  | false =>
    rw [if_neg (by simp [hany])]
    exact ⟨hWF, hcl⟩
  | true =>
    rw [if_pos (by simp [hany])]
    obtain ⟨a0, ha0mem, ha0pred⟩ := List.any_eq_true.mp hany
    have ha0id : a0.id = alert_id := by simpa using ha0pred
    have ha0cam : a0.camera_uuid = alert_id.1 := by rw [hWF a0 ha0mem, ha0id]
    have hsplit : ∀ v : String,
        aliveFor s v
          = s.alerts.countP
              (fun a => decide (a.camera_uuid = v) && decide (a.id = alert_id))
            + s.alerts.countP
              (fun a => decide (a.camera_uuid = v) && !decide (a.id = alert_id)) := by
      intro v
      rw [aliveFor_eq_countP]
      exact countP_split s.alerts _ _
    refine ⟨?_, ?_⟩
    · intro a ha
      have h2m := List.mem_filter.mp ha
      exact hWF a h2m.1
    · intro v
      obtain ⟨h1, h2, h3⟩ := hcl v
      have halive2 : aliveFor (modifyCamera (removeAlertRecords s alert_id)
          alert_id.1 clearSlot) v
            = s.alerts.countP
                (fun a => decide (a.camera_uuid = v) && !decide (a.id = alert_id)) := by
        rw [aliveFor_modifyCamera, aliveFor_removeAlertRecords]
      have hple : pendingFor (modifyCamera (removeAlertRecords s alert_id)
          alert_id.1 clearSlot) v = pendingFor s v := rfl
      refine ⟨?_, ?_, ?_⟩
      · rw [halive2, hple]
        have := hsplit v
        omega
      · intro c hc hslot
        rw [halive2, hple]
        by_cases hv : v = alert_id.1
        · subst hv
          have hpos : 0 < s.alerts.countP
              (fun a => decide (a.camera_uuid = alert_id.1)
                && decide (a.id = alert_id)) :=
            List.countP_pos_iff.mpr ⟨a0, ha0mem, by simp [ha0id, ha0cam]⟩
          have := hsplit alert_id.1
          omega
        · rw [lookupCamera_modify_ne _ _ _ _ hv,
            lookupCamera_removeAlertRecords] at hc
          have hs := h2 c hc hslot
          have := hsplit v
          omega
      · intro hnone
        rw [halive2, hple]
        by_cases hv : v = alert_id.1
        · subst hv
          rw [lookupCamera_modify_self, lookupCamera_removeAlertRecords] at hnone
          have hlnone : lookupCamera s alert_id.1 = none := by
            cases hl : lookupCamera s alert_id.1
            · rfl
            · rw [hl] at hnone
              simp at hnone
          have hs := h3 hlnone
          have := hsplit alert_id.1
          omega
        · rw [lookupCamera_modify_ne _ _ _ _ hv,
            lookupCamera_removeAlertRecords] at hnone
          have hs := h3 hnone
          have := hsplit v
          omega

theorem inv_timer (s : SysState) (alert_id : String × String)
    (h : AlertInv s) :
    AlertInv (terminate_alert_after_cooldown s alert_id) := by
  unfold terminate_alert_after_cooldown
  cases hget : getAlert s alert_id with
  | none => exact h
  | some alert =>
    dsimp only
    cases hcam : lookupCamera s alert.camera_uuid with
    | none => exact h
    | some cst =>
      dsimp only
      cases hact : cst.countdown_action with
      | dismiss => exact inv_dismiss s alert_id h
      | cancel_print =>
        exact inv_dismiss (logSuspend s alert.camera_uuid .cancel_print)
          alert_id (inv_logSuspend s alert.camera_uuid .cancel_print h)
      | pause_print =>
        exact inv_dismiss (logSuspend s alert.camera_uuid .pause_print)
          alert_id (inv_logSuspend s alert.camera_uuid .pause_print h)

theorem inv_add_camera (s : SysState) (u n src : String) (h : AlertInv s) :
    AlertInv (apply_add_camera s u n src) := by
  unfold apply_add_camera
  by_cases hp : (s.cameras.find? (fun p => p.1 = u)).isSome
  · rw [if_pos hp]
    exact h
  · rw [if_neg hp]
    obtain ⟨hWF, hcl⟩ := h
    refine ⟨hWF, ?_⟩
    intro v
    obtain ⟨h1, h2, h3⟩ := hcl v
    have hfind : s.cameras.find? (fun p => p.1 = u) = none := by
      cases hf : s.cameras.find? (fun p => p.1 = u)
      · rfl
      · rw [hf] at hp
        simp at hp
    refine ⟨h1, ?_, ?_⟩
    · intro c hc hslot
      by_cases hv : v = u
      · subst hv
        apply h3
        unfold lookupCamera
        rw [hfind]
        rfl
      · apply h2 c ?_ hslot
        unfold lookupCamera at hc ⊢
        cases hf2 : s.cameras.find? (fun p => p.1 = v) with
        | some a =>
          rw [find?_append_of_some _ _ _ _ hf2] at hc
          exact hc
        | none =>
          rw [find?_append_of_none _ _ _ hf2] at hc
          simp [hv] at hc
          exact absurd hc.1.symm hv
    · intro hnone
      apply h3
      unfold lookupCamera at hnone ⊢
      cases hf2 : s.cameras.find? (fun p => p.1 = v) with
      | some a =>
        rw [find?_append_of_some _ _ _ _ hf2] at hnone
        simp at hnone
      | none => rfl

theorem inv_start_live (s : SysState) (u : String) (now : Int)
    (hsafe : aliveFor s u + pendingFor s u = 0) (h : AlertInv s) :
    AlertInv (apply_start_live s u now) := by
  unfold apply_start_live
  cases hlook : lookupCamera s u with
  | none => exact h
  | some cst =>
    dsimp only
    by_cases hrun : cst.live_detection_running
    · rw [if_pos hrun]
      exact h
    · rw [if_neg hrun]
      obtain ⟨hWF, hcl⟩ := h
      refine ⟨hWF, ?_⟩
      intro v
      obtain ⟨h1, h2, h3⟩ := hcl v
      refine ⟨h1, ?_, ?_⟩
      · intro c hc hslot
        by_cases hv : v = u
        · subst hv
          exact hsafe
        · rw [lookupCamera_modify_ne s u v _ hv] at hc
          exact h2 c hc hslot
      · intro hnone
        by_cases hv : v = u
        · subst hv
          rw [lookupCamera_modify_self, hlook] at hnone
          simp at hnone
        · rw [lookupCamera_modify_ne s u v _ hv] at hnone
          exact h3 hnone

theorem inv_stop_live (s : SysState) (u : String) (h : AlertInv s) :
    AlertInv (apply_stop_live s u) := by
  unfold apply_stop_live
  cases hlook : lookupCamera s u with
  | none => exact h
  | some cst =>
    dsimp only
    by_cases hrun : cst.live_detection_running
    · rw [if_pos hrun]
      obtain ⟨hWF, hcl⟩ := h
      refine ⟨hWF, ?_⟩
      intro v
      obtain ⟨h1, h2, h3⟩ := hcl v
      refine ⟨h1, ?_, ?_⟩
      · intro c hc hslot
        by_cases hv : v = u
        · subst hv
          rw [lookupCamera_modify_self, hlook] at hc
          have hce : clearRunning cst = c := Option.some_injective _ hc
          rw [← hce] at hslot
          exact h2 cst hlook hslot
        · rw [lookupCamera_modify_ne s u v _ hv] at hc
          exact h2 c hc hslot
      · intro hnone
        by_cases hv : v = u
        · subst hv
          rw [lookupCamera_modify_self, hlook] at hnone
          simp at hnone
        · rw [lookupCamera_modify_ne s u v _ hv] at hnone
          exact h3 hnone
    · rw [if_neg hrun]
      exact h

theorem inv_append_detection (s : SysState) (u pred : String) (t : Int)
    (h : AlertInv s) : AlertInv (apply_append_detection s u pred t) := by
  unfold apply_append_detection
  obtain ⟨hWF, hcl⟩ := h
  refine ⟨hWF, ?_⟩
  intro v
  obtain ⟨h1, h2, h3⟩ := hcl v
  refine ⟨h1, ?_, ?_⟩
  · intro c hc hslot
    by_cases hv : v = u
    · subst hv
      rw [lookupCamera_modify_self] at hc
      cases hlook : lookupCamera s v with
      | none =>
        rw [hlook] at hc
        simp at hc
      | some cst =>
        rw [hlook] at hc
        have hce : appendHistory pred t cst = c := Option.some_injective _ hc
        rw [← hce] at hslot
        exact h2 cst hlook hslot
    · rw [lookupCamera_modify_ne s u v _ hv] at hc
      exact h2 c hc hslot
  · intro hnone
    by_cases hv : v = u
    · subst hv
      rw [lookupCamera_modify_self] at hnone
      cases hlook : lookupCamera s v with
      | none => exact h3 hlook
      | some cst =>
        rw [hlook] at hnone
        simp at hnone
    · rw [lookupCamera_modify_ne s u v _ hv] at hnone
      exact h3 hnone

theorem inv_applyOp (s : SysState) (op : SysOp) (h : AlertInv s)
    (hok : SafeOp s op) : AlertInv (applyOp s op) := by
  cases op with
  | addCamera u n src => exact inv_add_camera s u n src h
  | startLive u now => exact inv_start_live s u now hok h
  | stopLive u => exact inv_stop_live s u h
  | appendDetection u pred t => exact inv_append_detection s u pred t h
  | claimAlert u sfx => exact inv_claim s u sfx h
  | createAlert u sfx t => exact inv_create s u sfx t h
  | dismissAlert alert_id => exact inv_dismiss s alert_id h
  | timerFire alert_id => exact inv_timer s alert_id h

theorem inv_initSys : AlertInv initSys := by
  constructor
  · intro a ha
    simp [initSys] at ha
  · intro u
    refine ⟨?_, ?_, ?_⟩
    · show (0 : Nat) + 0 ≤ 1
      omega
    · intro c hc hslot
      simp [initSys, lookupCamera] at hc
    · intro hnone
      rfl

theorem safeReach_inv (s : SysState) (hs : SafeReach s) : AlertInv s := by
  induction hs with
  | start => exact inv_initSys
  | step op hs hok ih => exact inv_applyOp _ op ih hok

/-- C2, counterexample: from the empty system, the concrete operation trace
`duplicateAlertTrace` — whose only unusual step is restarting live detection
while alert a1 is still live — reaches a state with two non-dismissed alerts
for camera "c", refuting the claimed invariant that every operation
(including starting live detection) preserves at-most-one-alert-per-camera. -/
theorem two_live_alerts_reachable :
    aliveFor (runSys initSys duplicateAlertTrace) "c" = 2 ∧
    (getAlert (runSys initSys duplicateAlertTrace) ("c", "a1")).isSome = true ∧
    (getAlert (runSys initSys duplicateAlertTrace) ("c", "a2")).isSome = true := by
  decide

/-- C2 (amended): alert creation (the test-and-set plus the in-flight
registration), dismissal, countdown expiry, stopping live detection and
adding cameras all preserve the invariant that each camera has at most one
non-dismissed alert — counting in-flight creations, so concurrent passing
ticks create at most one alert; starting live detection preserves it only
when the camera has no live or in-flight alert (otherwise the route clears
the slot without dismissing, see the counterexample).  Hence in every state
reachable under that side condition, at most one non-dismissed alert is
associated with each camera. -/
theorem one_alert_per_camera (s : SysState) (hs : SafeReach s)
    (camera_uuid : String) :
    aliveFor s camera_uuid ≤ 1 ∧
    aliveFor s camera_uuid + pendingFor s camera_uuid ≤ 1 := by
  have h := (safeReach_inv s hs).2 camera_uuid
  exact ⟨by omega, h.1⟩

/-- Witness for C2: a concrete safely-reached state (one camera added)
satisfies the invariant. -/
theorem one_alert_per_camera_witness :
    aliveFor (applyOp initSys (.addCamera "c" "cam" "0")) "c" ≤ 1 :=
  (one_alert_per_camera _ (SafeReach.step (.addCamera "c" "cam" "0") SafeReach.start trivial) "c").1

/-- C7: exactly one of countdown expiry and explicit client action applies.
If the timer fires while the alert still exists: a DISMISS countdown action
clears the alert without touching the printer, CANCEL_PRINT and PAUSE_PRINT
invoke the printer-suspend capability and then clear the alert; either way
the camera slot returns to none.  An explicit dismissal clears the alert
immediately (returning true) and resets the slot; a timer that fires after
the alert is gone is a no-op; dismissing a missing alert returns false and
changes nothing, so a second dismissal is a no-op reporting not-found. -/
theorem alert_exactly_one_outcome (s : SysState) (alert_id : String × String)
    (alert : Alert) (c : CameraState)
    (hget : getAlert s alert_id = some alert)
    (hid : alert.camera_uuid = alert_id.1)
    (hcam : lookupCamera s alert_id.1 = some c) :
    (c.countdown_action = .dismiss →
      getAlert (terminate_alert_after_cooldown s alert_id) alert_id = none ∧
      currentSlot (terminate_alert_after_cooldown s alert_id) alert_id.1
          = some .empty ∧
      (terminate_alert_after_cooldown s alert_id).suspend_calls
          = s.suspend_calls) ∧
    (c.countdown_action = .cancel_print ∨ c.countdown_action = .pause_print →
      getAlert (terminate_alert_after_cooldown s alert_id) alert_id = none ∧
      currentSlot (terminate_alert_after_cooldown s alert_id) alert_id.1
          = some .empty ∧
      (terminate_alert_after_cooldown s alert_id).suspend_calls
          = s.suspend_calls ++ [(alert_id.1, c.countdown_action)]) ∧
    ((dismiss_alert s alert_id).1 = true ∧
      getAlert (dismiss_alert s alert_id).2 alert_id = none ∧
      currentSlot (dismiss_alert s alert_id).2 alert_id.1 = some .empty) ∧
    (∀ s2 : SysState, getAlert s2 alert_id = none →
      terminate_alert_after_cooldown s2 alert_id = s2 ∧
      dismiss_alert s2 alert_id = (false, s2)) ∧
    (∀ s2 : SysState,
      dismiss_alert (dismiss_alert s2 alert_id).2 alert_id
        = (false, (dismiss_alert s2 alert_id).2)) := by
  have hcam2 : lookupCamera s alert.camera_uuid = some c := by
    rw [hid]
    exact hcam
  refine ⟨?_, ?_, ?_, ?_, ?_⟩
  · intro hact
    rw [terminate_dismiss_action s alert_id alert c hget hcam2 hact]
    exact ⟨getAlert_dismiss_self s alert_id,
      (dismiss_found_parts s alert_id alert hget).2.2 c hcam,
      (dismiss_found_parts s alert_id alert hget).2.1⟩
  · intro hact
    rw [terminate_suspend_action s alert_id alert c hget hcam2 hact]
    have hget3 : getAlert (logSuspend s alert.camera_uuid c.countdown_action)
        alert_id = some alert := hget
    have hcam3 : lookupCamera (logSuspend s alert.camera_uuid c.countdown_action)
        alert_id.1 = some c := hcam
    refine ⟨getAlert_dismiss_self _ alert_id,
      (dismiss_found_parts _ alert_id alert hget3).2.2 c hcam3, ?_⟩
    rw [(dismiss_found_parts _ alert_id alert hget3).2.1]
    rw [← hid]
    rfl
  · exact ⟨(dismiss_found_parts s alert_id alert hget).1,
      getAlert_dismiss_self s alert_id,
      (dismiss_found_parts s alert_id alert hget).2.2 c hcam⟩
  · intro s2 h2
    exact ⟨terminate_noop_of_absent s2 alert_id h2,
      dismiss_not_found s2 alert_id h2⟩
  · intro s2
    exact dismiss_dismiss s2 alert_id

/-- Witness for C7: on a one-camera system holding alert a1 with the default
DISMISS countdown action, the firing timer clears the alert. -/
theorem alert_exactly_one_outcome_witness :
    getAlert (terminate_alert_after_cooldown
        (addAlertRecord (apply_add_camera initSys "c" "cam" "0")
          (mkAlert "c" "a1" 2 (defaultCameraState "cam" "0"))) ("c", "a1"))
      ("c", "a1") = none :=
  ((alert_exactly_one_outcome
      (addAlertRecord (apply_add_camera initSys "c" "cam" "0")
        (mkAlert "c" "a1" 2 (defaultCameraState "cam" "0")))
      ("c", "a1") (mkAlert "c" "a1" 2 (defaultCameraState "cam" "0"))
      (defaultCameraState "cam" "0") (by decide) rfl (by decide)).1 rfl).1

end DuetPrintGuard
